import Mathlib

/-!
Shallow embedding of the simplefs metadata engine (bitmap.c, inode.c, dir.c,
super.c, simplefs.h).

The block store is modelled as a typed disk: the superblock's two free
counters, the two allocation bitmaps (one bit per entity, as the source's
set/clear/test byte helpers realize), the flat inode table indexed by inode
number (the source addresses record `ino` at block `ino / INODES_PER_BLOCK + 1`,
offset `ino % INODES_PER_BLOCK`, an injective addressing that this model keeps
as a flat array; the aliasing of inodes 170..509 onto the bitmap blocks is not
represented, and theorems about inode-record writes are scoped to
`ino < SIMPLEFS_INODES_PER_BLOCK`), and the data blocks viewed as directory
blocks (a zeroed data block is the directory block with `nr_files = 0` and all
entries zero).

Every `sb_bread` and every `force_write_buffer` consumes one event of an
explicit I/O schedule: `none` means the operation succeeds, `some e` means it
fails and (for a write) `sync_dirty_buffer` returned `e`; a failed write leaves
the disk unchanged, a failed read returns no data.  An exhausted (empty)
schedule means all further I/O succeeds.
-/

/-! ## Constants (simplefs.h) -/

def SIMPLEFS_BLOCK_SIZE : Nat := 4096

def SIMPLEFS_FILENAME_LEN : Nat := 28

def SIMPLEFS_MAX_SUBFILES : Nat := 128

/-- `sizeof(struct simplefs_inode)` is six little-endian 32-bit fields. -/
def SIMPLEFS_INODE_SIZE : Nat := 24

def SIMPLEFS_INODES_PER_BLOCK : Nat := SIMPLEFS_BLOCK_SIZE / SIMPLEFS_INODE_SIZE

def SIMPLEFS_BITS_PER_BLOCK : Nat := SIMPLEFS_BLOCK_SIZE * 8

def SIMPLEFS_MAX_INODES : Nat := SIMPLEFS_BITS_PER_BLOCK

/-! ## Error codes (negated on return, as in the kernel source) -/

def EIO_ERR : Int := 5

def ENOSPC : Int := 28

def EEXIST : Int := 17

def EINVAL : Int := 22

def ENAMETOOLONG : Int := 36

def ENOTDIR : Int := 20

/-! ## Mode bits -/

def S_IFREG : Nat := 0x8000

def S_IFDIR : Nat := 0x4000

def S_ISDIR (m : Nat) : Bool := m &&& 0xF000 == S_IFDIR

def S_ISREG (m : Nat) : Bool := m &&& 0xF000 == S_IFREG

/-! ## Data model -/

/-- In-memory superblock info (`struct simplefs_sb_info`). -/
structure SbInfo where
  nr_blocks : Nat
  nr_inodes : Nat
  nr_free_blocks : Nat
  nr_free_inodes : Nat
  inode_bitmap_block : Nat
  block_bitmap_block : Nat
  first_data_block : Nat
deriving DecidableEq

/-- On-disk inode record (`struct simplefs_inode`). -/
structure SInode where
  i_mode : Nat
  i_uid : Nat
  i_gid : Nat
  i_size : Nat
  i_nlink : Nat
  ei_block : Nat
deriving DecidableEq

/-- Directory entry (`struct simplefs_file`). -/
structure SFile where
  inode : Nat
  filename : String
deriving DecidableEq

/-- Directory block (`struct simplefs_dir_block`): a count plus a
fixed-capacity entry array, modelled as a total function on slot indices. -/
structure DirBlock where
  nr_files : Nat
  files : Nat → SFile

/-- A fully zeroed directory / data block. -/
def zeroDirBlock : DirBlock := ⟨0, fun _ => ⟨0, ""⟩⟩

/-- The typed disk: the superblock's mutable free counters, the two bitmaps
(at the distinct blocks `inode_bitmap_block` / `block_bitmap_block`), the flat
inode table, and the data blocks viewed as directory blocks. -/
structure Disk where
  sb_free_blocks : Nat
  sb_free_inodes : Nat
  inode_bitmap : Nat → Bool
  block_bitmap : Nat → Bool
  inode_table : Nat → SInode
  dir_blocks : Nat → DirBlock

/-- Whole filesystem state: in-memory superblock mirror, disk, and the
remaining I/O schedule. -/
structure FS where
  sbi : SbInfo
  disk : Disk
  sched : List (Option Int)

/-! ## Bitmap helpers (bitmap.c) -/

def set_bit_in_buffer (bm : Nat → Bool) (bit : Nat) : Nat → Bool :=
  fun i => if i = bit then true else bm i

def clear_bit_in_buffer (bm : Nat → Bool) (bit : Nat) : Nat → Bool :=
  fun i => if i = bit then false else bm i

def test_bit_in_buffer (bm : Nat → Bool) (bit : Nat) : Bool := bm bit

/-- First-fit scan: first index `i` in `[lo, lo + fuel)` with `bm i = false`. -/
def findFirstClearAux (bm : Nat → Bool) : Nat → Nat → Option Nat
  | _, 0 => none
  | lo, fuel + 1 => if bm lo = false then some lo else findFirstClearAux bm (lo + 1) fuel

/-- First index `i` in `[lo, hi)` with `bm i = false` (the allocator's
`for (i = lo; i < hi; i++) if (!test_bit(...))` loop). -/
def findFirstClear (bm : Nat → Bool) (lo hi : Nat) : Option Nat :=
  findFirstClearAux bm lo (hi - lo)

/-- Number of clear bits at indices `[lo, lo + fuel)`. -/
def countClearAux (bm : Nat → Bool) : Nat → Nat → Nat
  | _, 0 => 0
  | lo, fuel + 1 => (if bm lo then 0 else 1) + countClearAux bm (lo + 1) fuel

/-- Number of clear bits at indices `[lo, hi)`. -/
def countClear (bm : Nat → Bool) (lo hi : Nat) : Nat :=
  countClearAux bm lo (hi - lo)

/-! ## Block-store primitives

Both primitives consume one schedule event; `none` is success. -/

/-- `sb_bread`: read a block; on failure the caller gets no buffer. -/
def sb_bread (s : FS) : Option Int × FS :=
  match s.sched with
  | [] => (none, s)
  | e :: rest => (e, { s with sched := rest })

/-- `force_write_buffer` (`mark_buffer_dirty` + `sync_dirty_buffer` + flush):
on success the caller's buffer mutation reaches the disk, on failure the
disk is unchanged and the sync error is returned. -/
def force_write_buffer (s : FS) : Option Int × FS :=
  match s.sched with
  | [] => (none, s)
  | e :: rest => (e, { s with sched := rest })

/-! ## Superblock store (bitmap.c `simplefs_update_sb`, super.c `simplefs_sync_sb`) -/

/-- Re-encode the in-memory free counters into the on-disk superblock and
force-write it. -/
def simplefs_update_sb (s : FS) : Int × FS :=
  match sb_bread s with
  | (some _, s1) => (-EIO_ERR, s1)
  | (none, s1) =>
    match force_write_buffer s1 with
    | (some e, s2) => (e, s2)
    | (none, s2) =>
      (0, { s2 with disk := { s2.disk with
              sb_free_blocks := s2.sbi.nr_free_blocks,
              sb_free_inodes := s2.sbi.nr_free_inodes } })

/-! ## Bitmap allocator (bitmap.c) -/

/-- `simplefs_alloc_inode_num`: first-fit allocation of an inode number,
with synchronous persistence and compensating rollback if the superblock
persist fails. -/
def simplefs_alloc_inode_num (s : FS) : Int × FS :=
  if s.sbi.nr_free_inodes = 0 then (-ENOSPC, s)
  else
    match sb_bread s with
    | (some _, s1) => (-EIO_ERR, s1)
    | (none, s1) =>
      match findFirstClear s1.disk.inode_bitmap 1 s1.sbi.nr_inodes with
      | none =>
        -- debug re-read of the bitmap block; its outcome is ignored
        (-ENOSPC, (sb_bread s1).2)
      | some free_inode =>
        match force_write_buffer s1 with
        | (some e, s2) => (e, s2)
        | (none, s2) =>
          let s3 : FS := { s2 with
            disk := { s2.disk with
              inode_bitmap := set_bit_in_buffer s2.disk.inode_bitmap free_inode },
            sbi := { s2.sbi with nr_free_inodes := s2.sbi.nr_free_inodes - 1 } }
          match simplefs_update_sb s3 with
          | (ret, s4) =>
            if ret = 0 then (Int.ofNat free_inode, s4)
            else
              -- rollback: re-read the bitmap, clear the bit, re-persist
              match sb_bread s4 with
              | (some _, s5) =>
                (ret, { s5 with sbi := { s5.sbi with
                          nr_free_inodes := s5.sbi.nr_free_inodes + 1 } })
              | (none, s5) =>
                match force_write_buffer s5 with
                | (some _, s6) =>
                  (ret, { s6 with sbi := { s6.sbi with
                            nr_free_inodes := s6.sbi.nr_free_inodes + 1 } })
                | (none, s6) =>
                  (ret, { s6 with
                    disk := { s6.disk with
                      inode_bitmap := clear_bit_in_buffer s6.disk.inode_bitmap free_inode },
                    sbi := { s6.sbi with
                      nr_free_inodes := s6.sbi.nr_free_inodes + 1 } })

/-- `simplefs_free_inode_num`: clear an inode's bit and persist; invalid
numbers and already-free inodes are logged and leave the state unchanged. -/
def simplefs_free_inode_num (s : FS) (ino : Nat) : FS :=
  if ino = 0 ∨ s.sbi.nr_inodes ≤ ino then s
  else
    match sb_bread s with
    | (some _, s1) => s1
    | (none, s1) =>
      if test_bit_in_buffer s1.disk.inode_bitmap ino = false then s1
      else
        match force_write_buffer s1 with
        | (some _, s2) => s2
        | (none, s2) =>
          (simplefs_update_sb { s2 with
            disk := { s2.disk with
              inode_bitmap := clear_bit_in_buffer s2.disk.inode_bitmap ino },
            sbi := { s2.sbi with
              nr_free_inodes := s2.sbi.nr_free_inodes + 1 } }).2

/-- `simplefs_alloc_block_num`: first-fit allocation of a data block number,
scanning from `first_data_block`. -/
def simplefs_alloc_block_num (s : FS) : Int × FS :=
  if s.sbi.nr_free_blocks = 0 then (-ENOSPC, s)
  else
    match sb_bread s with
    | (some _, s1) => (-EIO_ERR, s1)
    | (none, s1) =>
      match findFirstClear s1.disk.block_bitmap s1.sbi.first_data_block
          s1.sbi.nr_blocks with
      | none => (-ENOSPC, s1)
      | some free_block =>
        match force_write_buffer s1 with
        | (some e, s2) => (e, s2)
        | (none, s2) =>
          let s3 : FS := { s2 with
            disk := { s2.disk with
              block_bitmap := set_bit_in_buffer s2.disk.block_bitmap free_block },
            sbi := { s2.sbi with nr_free_blocks := s2.sbi.nr_free_blocks - 1 } }
          match simplefs_update_sb s3 with
          | (ret, s4) =>
            if ret = 0 then (Int.ofNat free_block, s4)
            else
              match sb_bread s4 with
              | (some _, s5) =>
                (ret, { s5 with sbi := { s5.sbi with
                          nr_free_blocks := s5.sbi.nr_free_blocks + 1 } })
              | (none, s5) =>
                match force_write_buffer s5 with
                | (some _, s6) =>
                  (ret, { s6 with sbi := { s6.sbi with
                            nr_free_blocks := s6.sbi.nr_free_blocks + 1 } })
                | (none, s6) =>
                  (ret, { s6 with
                    disk := { s6.disk with
                      block_bitmap := clear_bit_in_buffer s6.disk.block_bitmap free_block },
                    sbi := { s6.sbi with
                      nr_free_blocks := s6.sbi.nr_free_blocks + 1 } })

/-- `simplefs_free_block_num`: clear a data block's bit and persist; numbers
below `first_data_block` or at/after `nr_blocks` are rejected. -/
def simplefs_free_block_num (s : FS) (block : Nat) : FS :=
  if block < s.sbi.first_data_block ∨ s.sbi.nr_blocks ≤ block then s
  else
    match sb_bread s with
    | (some _, s1) => s1
    | (none, s1) =>
      if test_bit_in_buffer s1.disk.block_bitmap block = false then s1
      else
        match force_write_buffer s1 with
        | (some _, s2) => s2
        | (none, s2) =>
          (simplefs_update_sb { s2 with
            disk := { s2.disk with
              block_bitmap := clear_bit_in_buffer s2.disk.block_bitmap block },
            sbi := { s2.sbi with
              nr_free_blocks := s2.sbi.nr_free_blocks + 1 } }).2

/-! ## Inode table (inode.c `simplefs_iget`) -/

/-- The caller-visible inode representation populated by a successful
`simplefs_iget`. -/
structure IgetInode where
  i_mode : Nat
  i_uid : Nat
  i_gid : Nat
  i_size : Nat
  i_nlink : Nat
  ei_block : Nat
deriving DecidableEq

/-- `simplefs_iget`: load and validate an on-disk inode record.  Validation is
exactly the source's: `ino` nonzero and below `SIMPLEFS_MAX_INODES`
(else `-EINVAL`), the computed inode block below 4 (else `-EIO`), the decoded
mode regular-file-or-directory (else `-EINVAL`), the decoded data block below
the constant 12800 (else `-EINVAL`); a directory whose stored size is zero has
its size normalized to one block. -/
def simplefs_iget (s : FS) (ino : Nat) : Except Int IgetInode × FS :=
  if ino = 0 ∨ SIMPLEFS_MAX_INODES ≤ ino then (.error (-EINVAL), s)
  else
    if 4 ≤ ino / SIMPLEFS_INODES_PER_BLOCK + 1 then (.error (-EIO_ERR), s)
    else
      match sb_bread s with
      | (some _, s1) => (.error (-EIO_ERR), s1)
      | (none, s1) =>
        let raw := s1.disk.inode_table ino
        if ¬(S_ISDIR raw.i_mode ∨ S_ISREG raw.i_mode) then (.error (-EINVAL), s1)
        else if 12800 ≤ raw.ei_block then (.error (-EINVAL), s1)
        else
          let size :=
            if S_ISDIR raw.i_mode ∧ raw.i_size = 0 then SIMPLEFS_BLOCK_SIZE
            else raw.i_size
          (.ok ⟨raw.i_mode, raw.i_uid, raw.i_gid, size, raw.i_nlink, raw.ei_block⟩, s1)

/-! ## Creation protocol (inode.c `simplefs_create`, `simplefs_mkdir`) -/

/-- The duplicate-name scan of `simplefs_create`: does any of the first `k`
entries carry `name` (no validity filter on the entry's inode number)? -/
def name_exists_in (db : DirBlock) (name : String) : Nat → Bool
  | 0 => false
  | k + 1 => name_exists_in db name k || ((db.files k).filename == name)

/-- The duplicate-name scan of `simplefs_mkdir`: as `name_exists_in` but only
entries with a nonzero inode number are compared. -/
def name_exists_valid (db : DirBlock) (name : String) : Nat → Bool
  | 0 => false
  | k + 1 => name_exists_valid db name k
      || ((db.files k).inode != 0 && ((db.files k).filename == name))

/-- The shared `cleanup` / `cleanup_block`+`cleanup_inode` tail of the two
creation paths: free the data block, then the inode. -/
def cleanup_free_both (s : FS) (new_ino new_block : Nat) : FS :=
  simplefs_free_inode_num (simplefs_free_block_num s new_block) new_ino

/-- Append entry `(new_ino, name)` at slot `nr_files` of directory block `db`
and bump the count (the `memset`+`strncpy` entry write of both creators). -/
def append_dir_entry (db : DirBlock) (name : String) (new_ino : Nat) : DirBlock :=
  { db with
    nr_files := db.nr_files + 1,
    files := fun j => if j = db.nr_files then ⟨new_ino, name⟩ else db.files j }

/-- `simplefs_create`: create a regular file named `name` in the parent
directory whose data block is `pb`.  `mode` is the permission argument and
`uid`/`gid` the caller identity.  Follows the source's step order: name-length
check, free-counter pre-checks (`== 0`), allocate inode, allocate block, read
parent + full/duplicate checks, append + persist the parent entry, write the
inode record, zero + persist the data block, then `simplefs_iget`; every
failure after allocation frees both allocations. -/
def simplefs_create (s : FS) (pb : Nat) (name : String) (mode uid gid : Nat) :
    Int × FS :=
  if SIMPLEFS_FILENAME_LEN ≤ name.length then (-ENAMETOOLONG, s)
  else if s.sbi.nr_free_inodes = 0 then (-ENOSPC, s)
  else if s.sbi.nr_free_blocks = 0 then (-ENOSPC, s)
  else
    match simplefs_alloc_inode_num s with
    | (r1, s1) =>
      if r1 < 0 then (r1, s1)
      else
        let new_ino := r1.toNat
        match simplefs_alloc_block_num s1 with
        | (r2, s2) =>
          if r2 < 0 then (r2, simplefs_free_inode_num s2 new_ino)
          else
            let new_block := r2.toNat
            match sb_bread s2 with
            | (some _, s3) => (-EIO_ERR, cleanup_free_both s3 new_ino new_block)
            | (none, s3) =>
              let db := s3.disk.dir_blocks pb
              if SIMPLEFS_MAX_SUBFILES ≤ db.nr_files then
                (-ENOSPC, cleanup_free_both s3 new_ino new_block)
              else if name_exists_in db name db.nr_files then
                (-EEXIST, cleanup_free_both s3 new_ino new_block)
              else
                match force_write_buffer s3 with
                | (some e, s4) => (e, cleanup_free_both s4 new_ino new_block)
                | (none, s4) =>
                  let s5 : FS := { s4 with disk := { s4.disk with
                    dir_blocks := fun b =>
                      if b = pb then append_dir_entry db name new_ino
                      else s4.disk.dir_blocks b } }
                  match sb_bread s5 with
                  | (some _, s6) => (-EIO_ERR, cleanup_free_both s6 new_ino new_block)
                  | (none, s6) =>
                    match force_write_buffer s6 with
                    | (some e, s7) => (e, cleanup_free_both s7 new_ino new_block)
                    | (none, s7) =>
                      let s8 : FS := { s7 with disk := { s7.disk with
                        inode_table := fun j =>
                          if j = new_ino then
                            ⟨S_IFREG ||| (mode &&& 0o777), uid, gid, 0, 1, new_block⟩
                          else s7.disk.inode_table j } }
                      match sb_bread s8 with
                      | (some _, s9) => (-EIO_ERR, cleanup_free_both s9 new_ino new_block)
                      | (none, s9) =>
                        match force_write_buffer s9 with
                        | (some e, s10) => (e, cleanup_free_both s10 new_ino new_block)
                        | (none, s10) =>
                          let s11 : FS := { s10 with disk := { s10.disk with
                            dir_blocks := fun b =>
                              if b = new_block then zeroDirBlock
                              else s10.disk.dir_blocks b } }
                          match simplefs_iget s11 new_ino with
                          | (.error e, s12) => (e, cleanup_free_both s12 new_ino new_block)
                          | (.ok _, s12) => (0, s12)

/-- `simplefs_mkdir`: create a directory named `name` in the parent directory
whose data block is `pb`.  Follows the source's step order, which differs from
`simplefs_create`: name-length check, parent-block validation, conservative
free-counter pre-checks (`<= 1`), read parent + corruption/full/duplicate
checks, allocate inode, allocate block, write the inode record, zero + persist
the new directory block, re-read parent and append + persist the entry, then
`simplefs_iget`. -/
def simplefs_mkdir (s : FS) (pb : Nat) (name : String) (uid gid : Nat) :
    Int × FS :=
  if SIMPLEFS_FILENAME_LEN ≤ name.length then (-ENAMETOOLONG, s)
  else if pb = 0 ∨ s.sbi.nr_blocks ≤ pb then (-EIO_ERR, s)
  else if s.sbi.nr_free_inodes ≤ 1 then (-ENOSPC, s)
  else if s.sbi.nr_free_blocks ≤ 1 then (-ENOSPC, s)
  else
    match sb_bread s with
    | (some _, s1) => (-EIO_ERR, s1)
    | (none, s1) =>
      let db := s1.disk.dir_blocks pb
      if SIMPLEFS_MAX_SUBFILES < db.nr_files then (-EIO_ERR, s1)
      else if SIMPLEFS_MAX_SUBFILES ≤ db.nr_files then (-ENOSPC, s1)
      else if name_exists_valid db name db.nr_files then (-EEXIST, s1)
      else
        match simplefs_alloc_inode_num s1 with
        | (r1, s2) =>
          if r1 < 0 then (r1, s2)
          else
            let new_ino := r1.toNat
            match simplefs_alloc_block_num s2 with
            | (r2, s3) =>
              if r2 < 0 then (r2, simplefs_free_inode_num s3 new_ino)
              else
                let new_block := r2.toNat
                match sb_bread s3 with
                | (some _, s4) => (-EIO_ERR, cleanup_free_both s4 new_ino new_block)
                | (none, s4) =>
                  match force_write_buffer s4 with
                  | (some e, s5) => (e, cleanup_free_both s5 new_ino new_block)
                  | (none, s5) =>
                    let s6 : FS := { s5 with disk := { s5.disk with
                      inode_table := fun j =>
                        if j = new_ino then
                          ⟨S_IFDIR ||| 0o755, uid, gid, SIMPLEFS_BLOCK_SIZE, 2, new_block⟩
                        else s5.disk.inode_table j } }
                    match sb_bread s6 with
                    | (some _, s7) => (-EIO_ERR, cleanup_free_both s7 new_ino new_block)
                    | (none, s7) =>
                      match force_write_buffer s7 with
                      | (some e, s8) => (e, cleanup_free_both s8 new_ino new_block)
                      | (none, s8) =>
                        let s9 : FS := { s8 with disk := { s8.disk with
                          dir_blocks := fun b =>
                            if b = new_block then zeroDirBlock
                            else s8.disk.dir_blocks b } }
                        match sb_bread s9 with
                        | (some _, s10) => (-EIO_ERR, cleanup_free_both s10 new_ino new_block)
                        | (none, s10) =>
                          let db2 := s10.disk.dir_blocks pb
                          if SIMPLEFS_MAX_SUBFILES ≤ db2.nr_files then
                            (-ENOSPC, cleanup_free_both s10 new_ino new_block)
                          else
                            match force_write_buffer s10 with
                            | (some e, s11) => (e, cleanup_free_both s11 new_ino new_block)
                            | (none, s11) =>
                              let s12 : FS := { s11 with disk := { s11.disk with
                                dir_blocks := fun b =>
                                  if b = pb then append_dir_entry db2 name new_ino
                                  else s11.disk.dir_blocks b } }
                              match simplefs_iget s12 new_ino with
                              | (.error e, s13) => (e, cleanup_free_both s13 new_ino new_block)
                              | (.ok _, s13) => (0, s13)

/-! ## Directory iteration (dir.c `simplefs_iterate`) -/

/-- Host iteration context (`struct dir_context` plus the host's page
budget): current position, how many further entries the host accepts in this
call, and the entries committed so far. -/
structure DirCtx where
  pos : Nat
  budget : Nat
  emitted : List (String × Nat)
deriving DecidableEq

/-- `dir_emit`: commit one entry to the host, failing (returning `false`)
when the host cannot accept more entries in this call. -/
def dir_emit (ctx : DirCtx) (name : String) (ino : Nat) : Bool × DirCtx :=
  if ctx.budget = 0 then (false, ctx)
  else (true, { ctx with
    budget := ctx.budget - 1,
    emitted := ctx.emitted ++ [(name, ino)] })

/-- `dir_emit_dots`: synthesize the leading "." and ".." entries, advancing
the position past them. -/
def dir_emit_dots (ctx : DirCtx) (dino parent_ino : Nat) : Bool × DirCtx :=
  if ctx.pos = 0 then
    match dir_emit ctx "." dino with
    | (false, c) => (false, c)
    | (true, c) =>
      match dir_emit { c with pos := 1 } ".." parent_ino with
      | (false, c2) => (false, c2)
      | (true, c2) => (true, { c2 with pos := 2 })
  else if ctx.pos = 1 then
    match dir_emit ctx ".." parent_ino with
    | (false, c) => (false, c)
    | (true, c) => (true, { c with pos := 2 })
  else (true, ctx)

/-- The subfile loop of `simplefs_iterate`: from slot `i` (with
`fuel = SIMPLEFS_MAX_SUBFILES - i`), stop at the first zero-inode slot, stop
when `dir_emit` refuses, otherwise emit and advance the position. -/
def simplefs_iterate_loop (db : DirBlock) : Nat → Nat → DirCtx → DirCtx
  | _, 0, ctx => ctx
  | i, fuel + 1, ctx =>
    if (db.files i).inode = 0 then ctx
    else
      match dir_emit ctx (db.files i).filename (db.files i).inode with
      | (false, c) => c
      | (true, c) => simplefs_iterate_loop db (i + 1) fuel { c with pos := c.pos + 1 }

/-- `simplefs_iterate`: resumable directory iteration over the directory
inode with mode `i_mode` and data block `ei_block`; `dino`/`parent_ino` feed
the synthesized dot entries. -/
def simplefs_iterate (s : FS) (i_mode ei_block dino parent_ino : Nat)
    (ctx : DirCtx) : Int × DirCtx × FS :=
  if ¬S_ISDIR i_mode then (-ENOTDIR, ctx, s)
  else if SIMPLEFS_MAX_SUBFILES + 2 < ctx.pos then (0, ctx, s)
  else
    match dir_emit_dots ctx dino parent_ino with
    | (false, c) => (0, c, s)
    | (true, c) =>
      match sb_bread s with
      | (some _, s1) => (-EIO_ERR, c, s1)
      | (none, s1) =>
        let db := s1.disk.dir_blocks ei_block
        (0, simplefs_iterate_loop db (c.pos - 2)
              (SIMPLEFS_MAX_SUBFILES - (c.pos - 2)) c, s1)

/-! ## Lemmas about the first-fit scan and bit counting -/

theorem findFirstClearAux_some {bm : Nat → Bool} {lo fuel i : Nat}
    (h : findFirstClearAux bm lo fuel = some i) :
    lo ≤ i ∧ i < lo + fuel ∧ bm i = false ∧ ∀ j, lo ≤ j → j < i → bm j = true := by
  induction fuel generalizing lo with
  | zero => simp [findFirstClearAux] at h
  | succ n ih =>
    rw [findFirstClearAux] at h
    cases hbl : bm lo with
    | false =>
      rw [hbl] at h
      simp at h
      subst h
      exact ⟨le_refl _, by omega, hbl, fun j h1 h2 => absurd (h1.trans_lt h2) (lt_irrefl _)⟩
    | true =>
      rw [hbl] at h
      simp at h
      obtain ⟨a, b, c, d⟩ := ih h
      refine ⟨by omega, by omega, c, ?_⟩
      intro j h1 h2
      rcases Nat.eq_or_lt_of_le h1 with rfl | hlt
      · exact hbl
      · exact d j hlt h2

theorem findFirstClearAux_eq_some {bm : Nat → Bool} {fuel : Nat} {i : Nat}
    (h3 : bm i = false) :
    ∀ lo, lo ≤ i → i < lo + fuel → (∀ j, lo ≤ j → j < i → bm j = true) →
    findFirstClearAux bm lo fuel = some i := by
  induction fuel with
  | zero => intro lo h1 h2 _; omega
  | succ n ih =>
    intro lo h1 h2 h4
    rw [findFirstClearAux]
    rcases Nat.eq_or_lt_of_le h1 with rfl | hlt
    · rw [h3]
      simp
    · rw [h4 lo (le_refl _) hlt]
      simp
      exact ih (lo + 1) hlt (by omega) (fun j ha hb => h4 j (by omega) hb)

theorem findFirstClearAux_eq_none {bm : Nat → Bool} {fuel : Nat} :
    ∀ lo, (∀ j, lo ≤ j → j < lo + fuel → bm j = true) →
    findFirstClearAux bm lo fuel = none := by
  induction fuel with
  | zero => intro lo _; rfl
  | succ n ih =>
    intro lo h
    rw [findFirstClearAux, h lo (le_refl _) (by omega)]
    simp
    exact ih (lo + 1) (fun j ha hb => h j (by omega) (by omega))

theorem findFirstClear_some {bm : Nat → Bool} {lo hi i : Nat}
    (h : findFirstClear bm lo hi = some i) :
    lo ≤ i ∧ i < hi ∧ bm i = false ∧ ∀ j, lo ≤ j → j < i → bm j = true := by
  obtain ⟨a, b, c, d⟩ := findFirstClearAux_some h
  exact ⟨a, by omega, c, d⟩

theorem findFirstClear_eq_some {bm : Nat → Bool} {lo hi i : Nat}
    (h1 : lo ≤ i) (h2 : i < hi) (h3 : bm i = false)
    (h4 : ∀ j, lo ≤ j → j < i → bm j = true) :
    findFirstClear bm lo hi = some i :=
  findFirstClearAux_eq_some h3 lo h1 (by omega) h4

theorem findFirstClear_eq_none {bm : Nat → Bool} {lo hi : Nat}
    (h : ∀ j, lo ≤ j → j < hi → bm j = true) :
    findFirstClear bm lo hi = none :=
  findFirstClearAux_eq_none lo (fun j ha hb => h j ha (by omega))

theorem countClearAux_congr {bm bm2 : Nat → Bool} {fuel : Nat} :
    ∀ lo, (∀ j, lo ≤ j → j < lo + fuel → bm j = bm2 j) →
    countClearAux bm lo fuel = countClearAux bm2 lo fuel := by
  induction fuel with
  | zero => intro lo _; rfl
  | succ n ih =>
    intro lo h
    rw [countClearAux, countClearAux, h lo (le_refl _) (by omega),
      ih (lo + 1) (fun j ha hb => h j (by omega) (by omega))]

theorem countClearAux_set {bm : Nat → Bool} {fuel i : Nat} (h3 : bm i = false) :
    ∀ lo, lo ≤ i → i < lo + fuel →
    countClearAux (set_bit_in_buffer bm i) lo fuel + 1 = countClearAux bm lo fuel := by
  induction fuel with
  | zero => intro lo h1 h2; omega
  | succ n ih =>
    intro lo h1 h2
    rw [countClearAux, countClearAux]
    rcases Nat.eq_or_lt_of_le h1 with rfl | hlt
    · rw [h3]
      have hset : set_bit_in_buffer bm lo lo = true := by simp [set_bit_in_buffer]
      rw [hset]
      have : countClearAux (set_bit_in_buffer bm lo) (lo + 1) n
          = countClearAux bm (lo + 1) n := by
        refine countClearAux_congr (lo + 1) (fun j ha hb => ?_)
        simp [set_bit_in_buffer]
        intro hj
        omega
      simp
      omega
    · have hlo : set_bit_in_buffer bm i lo = bm lo := by
        simp [set_bit_in_buffer]
        intro hj
        omega
      rw [hlo]
      have := ih (lo + 1) hlt (by omega)
      omega

theorem countClearAux_clear {bm : Nat → Bool} {fuel i : Nat} (h3 : bm i = true) :
    ∀ lo, lo ≤ i → i < lo + fuel →
    countClearAux (clear_bit_in_buffer bm i) lo fuel = countClearAux bm lo fuel + 1 := by
  induction fuel with
  | zero => intro lo h1 h2; omega
  | succ n ih =>
    intro lo h1 h2
    rw [countClearAux, countClearAux]
    rcases Nat.eq_or_lt_of_le h1 with rfl | hlt
    · rw [h3]
      have hclr : clear_bit_in_buffer bm lo lo = false := by simp [clear_bit_in_buffer]
      rw [hclr]
      have : countClearAux (clear_bit_in_buffer bm lo) (lo + 1) n
          = countClearAux bm (lo + 1) n := by
        refine countClearAux_congr (lo + 1) (fun j ha hb => ?_)
        simp [clear_bit_in_buffer]
        intro hj
        omega
      simp
      omega
    · have hlo : clear_bit_in_buffer bm i lo = bm lo := by
        simp [clear_bit_in_buffer]
        intro hj
        omega
      rw [hlo]
      have := ih (lo + 1) hlt (by omega)
      omega

theorem countClear_set {bm : Nat → Bool} {lo hi i : Nat}
    (h1 : lo ≤ i) (h2 : i < hi) (h3 : bm i = false) :
    countClear (set_bit_in_buffer bm i) lo hi + 1 = countClear bm lo hi :=
  countClearAux_set h3 lo h1 (by omega)

theorem countClear_clear {bm : Nat → Bool} {lo hi i : Nat}
    (h1 : lo ≤ i) (h2 : i < hi) (h3 : bm i = true) :
    countClear (clear_bit_in_buffer bm i) lo hi = countClear bm lo hi + 1 :=
  countClearAux_clear h3 lo h1 (by omega)

theorem clear_set_cancel {bm : Nat → Bool} {i : Nat} (h : bm i = false) :
    clear_bit_in_buffer (set_bit_in_buffer bm i) i = bm := by
  funext j
  by_cases hj : j = i
  · subst hj
    simp [clear_bit_in_buffer, h]
  · simp [clear_bit_in_buffer, set_bit_in_buffer, hj]

theorem set_bit_self {bm : Nat → Bool} {i : Nat} : set_bit_in_buffer bm i i = true := by
  simp [set_bit_in_buffer]

theorem set_bit_other {bm : Nat → Bool} {i j : Nat} (h : j ≠ i) :
    set_bit_in_buffer bm i j = bm j := by
  simp [set_bit_in_buffer, h]

/-! ## Characterizations of the allocator operations under explicit schedules -/

/-- State after a fully persisted successful inode allocation of bit `i`,
with remaining schedule `t`. -/
def allocInodeState (s : FS) (i : Nat) (t : List (Option Int)) : FS :=
  { s with
    sbi := { s.sbi with nr_free_inodes := s.sbi.nr_free_inodes - 1 },
    disk := { s.disk with
      inode_bitmap := set_bit_in_buffer s.disk.inode_bitmap i,
      sb_free_inodes := s.sbi.nr_free_inodes - 1,
      sb_free_blocks := s.sbi.nr_free_blocks },
    sched := t }

/-- State after a fully persisted successful block allocation of bit `i`,
with remaining schedule `t`. -/
def allocBlockState (s : FS) (i : Nat) (t : List (Option Int)) : FS :=
  { s with
    sbi := { s.sbi with nr_free_blocks := s.sbi.nr_free_blocks - 1 },
    disk := { s.disk with
      block_bitmap := set_bit_in_buffer s.disk.block_bitmap i,
      sb_free_blocks := s.sbi.nr_free_blocks - 1,
      sb_free_inodes := s.sbi.nr_free_inodes },
    sched := t }

/-- State after a fully persisted successful inode free of bit `i`. -/
def freeInodeState (s : FS) (i : Nat) (t : List (Option Int)) : FS :=
  { s with
    sbi := { s.sbi with nr_free_inodes := s.sbi.nr_free_inodes + 1 },
    disk := { s.disk with
      inode_bitmap := clear_bit_in_buffer s.disk.inode_bitmap i,
      sb_free_inodes := s.sbi.nr_free_inodes + 1,
      sb_free_blocks := s.sbi.nr_free_blocks },
    sched := t }

/-- State after a fully persisted successful block free of bit `i`. -/
def freeBlockState (s : FS) (i : Nat) (t : List (Option Int)) : FS :=
  { s with
    sbi := { s.sbi with nr_free_blocks := s.sbi.nr_free_blocks + 1 },
    disk := { s.disk with
      block_bitmap := clear_bit_in_buffer s.disk.block_bitmap i,
      sb_free_blocks := s.sbi.nr_free_blocks + 1,
      sb_free_inodes := s.sbi.nr_free_inodes },
    sched := t }

theorem alloc_inode_ok_nil {s : FS} {i : Nat}
    (hs : s.sched = []) (h0 : s.sbi.nr_free_inodes ≠ 0)
    (hf : findFirstClear s.disk.inode_bitmap 1 s.sbi.nr_inodes = some i) :
    simplefs_alloc_inode_num s = (Int.ofNat i, allocInodeState s i []) := by
  simp [simplefs_alloc_inode_num, sb_bread, force_write_buffer, simplefs_update_sb,
    hs, h0, hf, allocInodeState]

theorem alloc_inode_ok_cons {s : FS} {i : Nat} {t : List (Option Int)}
    (hs : s.sched = none :: none :: none :: none :: t)
    (h0 : s.sbi.nr_free_inodes ≠ 0)
    (hf : findFirstClear s.disk.inode_bitmap 1 s.sbi.nr_inodes = some i) :
    simplefs_alloc_inode_num s = (Int.ofNat i, allocInodeState s i t) := by
  simp [simplefs_alloc_inode_num, sb_bread, force_write_buffer, simplefs_update_sb,
    hs, h0, hf, allocInodeState]

theorem alloc_block_ok_nil {s : FS} {i : Nat}
    (hs : s.sched = []) (h0 : s.sbi.nr_free_blocks ≠ 0)
    (hf : findFirstClear s.disk.block_bitmap s.sbi.first_data_block s.sbi.nr_blocks
      = some i) :
    simplefs_alloc_block_num s = (Int.ofNat i, allocBlockState s i []) := by
  simp [simplefs_alloc_block_num, sb_bread, force_write_buffer, simplefs_update_sb,
    hs, h0, hf, allocBlockState]

theorem alloc_block_ok_cons {s : FS} {i : Nat} {t : List (Option Int)}
    (hs : s.sched = none :: none :: none :: none :: t)
    (h0 : s.sbi.nr_free_blocks ≠ 0)
    (hf : findFirstClear s.disk.block_bitmap s.sbi.first_data_block s.sbi.nr_blocks
      = some i) :
    simplefs_alloc_block_num s = (Int.ofNat i, allocBlockState s i t) := by
  simp [simplefs_alloc_block_num, sb_bread, force_write_buffer, simplefs_update_sb,
    hs, h0, hf, allocBlockState]

theorem free_inode_ok_nil {s : FS} {i : Nat}
    (hs : s.sched = []) (h1 : i ≠ 0) (h2 : i < s.sbi.nr_inodes)
    (hb : s.disk.inode_bitmap i = true) :
    simplefs_free_inode_num s i = freeInodeState s i [] := by
  have hcond : ¬(i = 0 ∨ s.sbi.nr_inodes ≤ i) := by omega
  simp [simplefs_free_inode_num, sb_bread, force_write_buffer, simplefs_update_sb,
    test_bit_in_buffer, hs, hcond, hb, freeInodeState]

theorem free_inode_ok_cons {s : FS} {i : Nat} {t : List (Option Int)}
    (hs : s.sched = none :: none :: none :: none :: t)
    (h1 : i ≠ 0) (h2 : i < s.sbi.nr_inodes)
    (hb : s.disk.inode_bitmap i = true) :
    simplefs_free_inode_num s i = freeInodeState s i t := by
  have hcond : ¬(i = 0 ∨ s.sbi.nr_inodes ≤ i) := by omega
  simp [simplefs_free_inode_num, sb_bread, force_write_buffer, simplefs_update_sb,
    test_bit_in_buffer, hs, hcond, hb, freeInodeState]

theorem free_block_ok_nil {s : FS} {i : Nat}
    (hs : s.sched = []) (h1 : s.sbi.first_data_block ≤ i) (h2 : i < s.sbi.nr_blocks)
    (hb : s.disk.block_bitmap i = true) :
    simplefs_free_block_num s i = freeBlockState s i [] := by
  have hcond : ¬(i < s.sbi.first_data_block ∨ s.sbi.nr_blocks ≤ i) := by omega
  simp [simplefs_free_block_num, sb_bread, force_write_buffer, simplefs_update_sb,
    test_bit_in_buffer, hs, hcond, hb, freeBlockState]

theorem free_block_ok_cons {s : FS} {i : Nat} {t : List (Option Int)}
    (hs : s.sched = none :: none :: none :: none :: t)
    (h1 : s.sbi.first_data_block ≤ i) (h2 : i < s.sbi.nr_blocks)
    (hb : s.disk.block_bitmap i = true) :
    simplefs_free_block_num s i = freeBlockState s i t := by
  have hcond : ¬(i < s.sbi.first_data_block ∨ s.sbi.nr_blocks ≤ i) := by omega
  simp [simplefs_free_block_num, sb_bread, force_write_buffer, simplefs_update_sb,
    test_bit_in_buffer, hs, hcond, hb, freeBlockState]

/-! ## A small concrete volume used by the witnesses -/

/-- Inode bitmap with inode 0 (reserved) and inode 1 (root) allocated. -/
def exIbm : Nat → Bool := fun i => decide (i < 2)

/-- Block bitmap with blocks 0..3 (reserved) and 4 (root directory) allocated. -/
def exBbm : Nat → Bool := fun i => decide (i < 5)

def exRootInode : SInode := ⟨S_IFDIR ||| 0o755, 0, 0, SIMPLEFS_BLOCK_SIZE, 2, 4⟩

def exTable : Nat → SInode := fun i => if i = 1 then exRootInode else ⟨0, 0, 0, 0, 0, 0⟩

/-- Root directory with the single entry `"a" -> inode 2`. -/
def exRootDir : DirBlock := ⟨1, fun j => if j = 0 then ⟨2, "a"⟩ else ⟨0, ""⟩⟩

def exDirs : Nat → DirBlock := fun b => if b = 4 then exRootDir else zeroDirBlock

/-- 16 blocks, 8 inodes, consistent free counters (11 free blocks, 6 free
inodes), bitmaps at blocks 2 and 3, first data block 4. -/
def exSbi : SbInfo := ⟨16, 8, 11, 6, 2, 3, 4⟩

def exDisk : Disk := ⟨11, 6, exIbm, exBbm, exTable, exDirs⟩

def exFS : FS := ⟨exSbi, exDisk, []⟩

/-! ## C2: inode allocation -/

/-- C2: `simplefs_alloc_inode_num` fails with `-ENOSPC` and leaves the state
untouched when the in-memory free-inode counter is 0; otherwise, if every bit
in `[1, nr_inodes)` is set it fails with `-ENOSPC` (bitmap untouched), and if
`i` is the lowest clear bit in `[1, nr_inodes)` it returns `i` after setting
that bit, persisting the bitmap, decrementing the in-memory free-inode
counter, and persisting the superblock counters. -/
theorem alloc_inode_num_spec (s : FS) (hs : s.sched = []) :
    (s.sbi.nr_free_inodes = 0 → simplefs_alloc_inode_num s = (-ENOSPC, s)) ∧
    (s.sbi.nr_free_inodes ≠ 0 →
      ((∀ j, 1 ≤ j → j < s.sbi.nr_inodes → s.disk.inode_bitmap j = true) →
        simplefs_alloc_inode_num s = (-ENOSPC, s)) ∧
      (∀ i, 1 ≤ i → i < s.sbi.nr_inodes → s.disk.inode_bitmap i = false →
        (∀ j, 1 ≤ j → j < i → s.disk.inode_bitmap j = true) →
        simplefs_alloc_inode_num s = (Int.ofNat i, allocInodeState s i []))) := by
  refine ⟨fun h => by simp [simplefs_alloc_inode_num, h], fun h0 => ⟨?_, ?_⟩⟩
  · intro hall
    have hnone : findFirstClear s.disk.inode_bitmap 1 s.sbi.nr_inodes = none :=
      findFirstClear_eq_none hall
    simp [simplefs_alloc_inode_num, sb_bread, hs, h0, hnone]
  · intro i h1 h2 h3 h4
    exact alloc_inode_ok_nil hs h0 (findFirstClear_eq_some h1 h2 h3 h4)

/-- Witness for C2 on the concrete volume: the lowest clear inode bit is 2. -/
theorem alloc_inode_num_spec_witness :
    simplefs_alloc_inode_num exFS = (Int.ofNat 2, allocInodeState exFS 2 []) :=
  ((alloc_inode_num_spec exFS rfl).2 (by decide)).2 2 (by decide) (by decide)
    (by decide) (by intro j hj1 hj2; interval_cases j; decide)

/-! ## C3: compensating rollback when the superblock persist fails -/

/-- C3: for both allocators, if the bit was set and persisted but the
subsequent superblock persist fails — either its write fails with `e` or its
read fails — the allocator clears the bit it just set, re-persists the
bitmap, restores the in-memory free counter, and returns the original I/O
error, leaving the state exactly as before the call. -/
theorem alloc_rollback_on_sb_persist_failure (s : FS) (e : Int) (he : e ≠ 0) :
    (∀ i, s.sched = [none, none, none, some e] → s.sbi.nr_free_inodes ≠ 0 →
      findFirstClear s.disk.inode_bitmap 1 s.sbi.nr_inodes = some i →
      simplefs_alloc_inode_num s = (e, { s with sched := [] })) ∧
    (∀ i, s.sched = [none, none, some e] → s.sbi.nr_free_inodes ≠ 0 →
      findFirstClear s.disk.inode_bitmap 1 s.sbi.nr_inodes = some i →
      simplefs_alloc_inode_num s = (-EIO_ERR, { s with sched := [] })) ∧
    (∀ i, s.sched = [none, none, none, some e] → s.sbi.nr_free_blocks ≠ 0 →
      findFirstClear s.disk.block_bitmap s.sbi.first_data_block s.sbi.nr_blocks
        = some i →
      simplefs_alloc_block_num s = (e, { s with sched := [] })) ∧
    (∀ i, s.sched = [none, none, some e] → s.sbi.nr_free_blocks ≠ 0 →
      findFirstClear s.disk.block_bitmap s.sbi.first_data_block s.sbi.nr_blocks
        = some i →
      simplefs_alloc_block_num s = (-EIO_ERR, { s with sched := [] })) := by
  refine ⟨?_, ?_, ?_, ?_⟩ <;> intro i hs h0 hf
  · have hbit := (findFirstClear_some hf).2.2.1
    have hn : s.sbi.nr_free_inodes - 1 + 1 = s.sbi.nr_free_inodes := by omega
    simp [simplefs_alloc_inode_num, sb_bread, force_write_buffer, simplefs_update_sb,
      hs, h0, hf, he, hn, clear_set_cancel hbit]
  · have hbit := (findFirstClear_some hf).2.2.1
    have hn : s.sbi.nr_free_inodes - 1 + 1 = s.sbi.nr_free_inodes := by omega
    simp [simplefs_alloc_inode_num, sb_bread, force_write_buffer, simplefs_update_sb,
      hs, h0, hf, hn, EIO_ERR, clear_set_cancel hbit]
  · have hbit := (findFirstClear_some hf).2.2.1
    have hn : s.sbi.nr_free_blocks - 1 + 1 = s.sbi.nr_free_blocks := by omega
    simp [simplefs_alloc_block_num, sb_bread, force_write_buffer, simplefs_update_sb,
      hs, h0, hf, he, hn, clear_set_cancel hbit]
  · have hbit := (findFirstClear_some hf).2.2.1
    have hn : s.sbi.nr_free_blocks - 1 + 1 = s.sbi.nr_free_blocks := by omega
    simp [simplefs_alloc_block_num, sb_bread, force_write_buffer, simplefs_update_sb,
      hs, h0, hf, hn, EIO_ERR, clear_set_cancel hbit]

/-- Witness for C3: a failed superblock write during inode allocation on the
concrete volume is rolled back completely. -/
theorem alloc_rollback_on_sb_persist_failure_witness :
    simplefs_alloc_inode_num { exFS with sched := [none, none, none, some (-5)] }
      = (-5, exFS) :=
  (alloc_rollback_on_sb_persist_failure
      { exFS with sched := [none, none, none, some (-5)] } (-5) (by decide)).1
    2 rfl (by decide) (by decide)

/-! ## C6: allocate-then-free round trip -/

/-- C6: whenever allocation succeeds (counter nonzero, a clear bit exists),
allocating an inode (resp. a data block) and then freeing the returned number
restores the corresponding bitmap and free counter exactly to their
pre-allocation values. -/
theorem alloc_then_free_roundtrip (s : FS) (hs : s.sched = []) :
    (∀ i, s.sbi.nr_free_inodes ≠ 0 →
      findFirstClear s.disk.inode_bitmap 1 s.sbi.nr_inodes = some i →
      (simplefs_free_inode_num (simplefs_alloc_inode_num s).2
          (simplefs_alloc_inode_num s).1.toNat).disk.inode_bitmap
        = s.disk.inode_bitmap ∧
      (simplefs_free_inode_num (simplefs_alloc_inode_num s).2
          (simplefs_alloc_inode_num s).1.toNat).sbi.nr_free_inodes
        = s.sbi.nr_free_inodes) ∧
    (∀ i, s.sbi.nr_free_blocks ≠ 0 →
      findFirstClear s.disk.block_bitmap s.sbi.first_data_block s.sbi.nr_blocks
        = some i →
      (simplefs_free_block_num (simplefs_alloc_block_num s).2
          (simplefs_alloc_block_num s).1.toNat).disk.block_bitmap
        = s.disk.block_bitmap ∧
      (simplefs_free_block_num (simplefs_alloc_block_num s).2
          (simplefs_alloc_block_num s).1.toNat).sbi.nr_free_blocks
        = s.sbi.nr_free_blocks) := by
  constructor <;> intro i h0 hf
  · obtain ⟨hi1, hi2, hbit, -⟩ := findFirstClear_some hf
    have halloc := alloc_inode_ok_nil hs h0 hf
    have hfree := free_inode_ok_nil (s := allocInodeState s i []) (i := i) rfl
      (by omega) (by simpa [allocInodeState] using hi2)
      (by simp [allocInodeState, set_bit_self])
    have htn : (Int.ofNat i).toNat = i := rfl
    simp only [halloc, htn]
    rw [hfree]
    refine ⟨?_, ?_⟩
    · simp only [freeInodeState, allocInodeState]
      exact clear_set_cancel hbit
    · simp only [freeInodeState, allocInodeState]
      omega
  · obtain ⟨hi1, hi2, hbit, -⟩ := findFirstClear_some hf
    have halloc := alloc_block_ok_nil hs h0 hf
    have hfree := free_block_ok_nil (s := allocBlockState s i []) (i := i) rfl
      (by simpa [allocBlockState] using hi1) (by simpa [allocBlockState] using hi2)
      (by simp [allocBlockState, set_bit_self])
    have htn : (Int.ofNat i).toNat = i := rfl
    simp only [halloc, htn]
    rw [hfree]
    refine ⟨?_, ?_⟩
    · simp only [freeBlockState, allocBlockState]
      exact clear_set_cancel hbit
    · simp only [freeBlockState, allocBlockState]
      omega

/-- Witness for C6 on the concrete volume (inode side, allocated bit 2). -/
theorem alloc_then_free_roundtrip_witness :
    (simplefs_free_inode_num (simplefs_alloc_inode_num exFS).2
        (simplefs_alloc_inode_num exFS).1.toNat).disk.inode_bitmap
      = exFS.disk.inode_bitmap ∧
    (simplefs_free_inode_num (simplefs_alloc_inode_num exFS).2
        (simplefs_alloc_inode_num exFS).1.toNat).sbi.nr_free_inodes
      = exFS.sbi.nr_free_inodes :=
  (alloc_then_free_roundtrip exFS rfl).1 2 (by decide) (by decide)

/-! ## C10: counter/bitmap consistency invariant -/

/-- The counter/bitmap consistency invariant: the free-inode counter counts
the clear bits of the inode bitmap at `[1, nr_inodes)` and the free-block
counter counts the clear bits of the block bitmap at
`[first_data_block, nr_blocks)`. -/
def counters_consistent (s : FS) : Prop :=
  s.sbi.nr_free_inodes = countClear s.disk.inode_bitmap 1 s.sbi.nr_inodes ∧
  s.sbi.nr_free_blocks
    = countClear s.disk.block_bitmap s.sbi.first_data_block s.sbi.nr_blocks

/-- C10: with all I/O succeeding, every allocate and free operation —
whether it succeeds, rejects an invalid argument, or reports an already-free
entity — preserves the counter/bitmap consistency invariant. -/
theorem alloc_free_preserve_consistency (s : FS) (hs : s.sched = [])
    (h : counters_consistent s) :
    counters_consistent (simplefs_alloc_inode_num s).2 ∧
    counters_consistent (simplefs_alloc_block_num s).2 ∧
    (∀ n, counters_consistent (simplefs_free_inode_num s n)) ∧
    (∀ n, counters_consistent (simplefs_free_block_num s n)) := by
  obtain ⟨hI, hB⟩ := h
  refine ⟨?_, ?_, ?_, ?_⟩
  · by_cases h0 : s.sbi.nr_free_inodes = 0
    · simp only [simplefs_alloc_inode_num, if_pos h0]
      exact ⟨hI, hB⟩
    · cases hf : findFirstClear s.disk.inode_bitmap 1 s.sbi.nr_inodes with
      | none =>
        simp only [simplefs_alloc_inode_num, if_neg h0, sb_bread, hs, hf]
        exact ⟨hI, hB⟩
      | some i =>
        have halloc := alloc_inode_ok_nil hs h0 hf
        simp only [halloc]
        obtain ⟨hi1, hi2, hbit, -⟩ := findFirstClear_some hf
        have hset := countClear_set hi1 hi2 hbit
        constructor
        · simp only [allocInodeState]
          omega
        · simpa only [allocInodeState] using hB
  · by_cases h0 : s.sbi.nr_free_blocks = 0
    · simp only [simplefs_alloc_block_num, if_pos h0]
      exact ⟨hI, hB⟩
    · cases hf : findFirstClear s.disk.block_bitmap s.sbi.first_data_block
        s.sbi.nr_blocks with
      | none =>
        simp only [simplefs_alloc_block_num, if_neg h0, sb_bread, hs, hf]
        exact ⟨hI, hB⟩
      | some i =>
        have halloc := alloc_block_ok_nil hs h0 hf
        simp only [halloc]
        obtain ⟨hi1, hi2, hbit, -⟩ := findFirstClear_some hf
        have hset := countClear_set hi1 hi2 hbit
        constructor
        · simpa only [allocBlockState] using hI
        · simp only [allocBlockState]
          omega
  · intro n
    by_cases hv : n = 0 ∨ s.sbi.nr_inodes ≤ n
    · simp only [simplefs_free_inode_num, if_pos hv]
      exact ⟨hI, hB⟩
    · cases hbit : s.disk.inode_bitmap n with
      | false =>
        simp only [simplefs_free_inode_num, if_neg hv, sb_bread, hs,
          test_bit_in_buffer, hbit, if_pos]
        exact ⟨hI, hB⟩
      | true =>
        rw [free_inode_ok_nil hs (by omega) (by omega) hbit]
        have hclr : countClear (clear_bit_in_buffer s.disk.inode_bitmap n) 1
            s.sbi.nr_inodes = countClear s.disk.inode_bitmap 1 s.sbi.nr_inodes + 1 :=
          countClear_clear (by omega) (by omega) hbit
        constructor
        · simp only [freeInodeState]
          omega
        · simpa only [freeInodeState] using hB
  · intro n
    by_cases hv : n < s.sbi.first_data_block ∨ s.sbi.nr_blocks ≤ n
    · simp only [simplefs_free_block_num, if_pos hv]
      exact ⟨hI, hB⟩
    · cases hbit : s.disk.block_bitmap n with
      | false =>
        simp only [simplefs_free_block_num, if_neg hv, sb_bread, hs,
          test_bit_in_buffer, hbit, if_pos]
        exact ⟨hI, hB⟩
      | true =>
        rw [free_block_ok_nil hs (by omega) (by omega) hbit]
        have hclr : countClear (clear_bit_in_buffer s.disk.block_bitmap n)
            s.sbi.first_data_block s.sbi.nr_blocks
            = countClear s.disk.block_bitmap s.sbi.first_data_block s.sbi.nr_blocks
              + 1 :=
          countClear_clear (by omega) (by omega) hbit
        constructor
        · simpa only [freeBlockState] using hI
        · simp only [freeBlockState]
          omega

/-- Witness for C10 on the concrete (consistent) volume. -/
theorem alloc_free_preserve_consistency_witness :
    counters_consistent (simplefs_alloc_inode_num exFS).2 ∧
    counters_consistent (simplefs_free_inode_num exFS 1) :=
  ⟨(alloc_free_preserve_consistency exFS rfl (by constructor <;> decide)).1,
   (alloc_free_preserve_consistency exFS rfl (by constructor <;> decide)).2.2.1 1⟩

/-! ## C1: duplicate-name create leaks nothing -/

theorem name_exists_in_of_mem {db : DirBlock} {name : String} {k : Nat}
    (i : Nat) (h1 : i < k) (h2 : (db.files i).filename = name) :
    name_exists_in db name k = true := by
  induction k with
  | zero => omega
  | succ n ih =>
    rw [name_exists_in]
    rcases Nat.lt_succ_iff_lt_or_eq.mp h1 with h | h
    · rw [ih h]
      simp
    · subst h
      simp [h2]

/-- C1: if `name` is already present among the parent directory's entries,
`simplefs_create` fails with `-EEXIST`, and the free-inode counter, the
free-block counter, both bitmaps, and the parent directory's entry count are
all unchanged (the two transient allocations are freed again). -/
theorem create_duplicate_name_no_leak (s : FS) (pb : Nat) (name : String)
    (mode uid gid ii bb : Nat)
    (hs : s.sched = [])
    (hn : name.length < SIMPLEFS_FILENAME_LEN)
    (h0i : s.sbi.nr_free_inodes ≠ 0) (h0b : s.sbi.nr_free_blocks ≠ 0)
    (hfi : findFirstClear s.disk.inode_bitmap 1 s.sbi.nr_inodes = some ii)
    (hfb : findFirstClear s.disk.block_bitmap s.sbi.first_data_block
      s.sbi.nr_blocks = some bb)
    (hnr : (s.disk.dir_blocks pb).nr_files < SIMPLEFS_MAX_SUBFILES)
    (hdup : ∃ j, j < (s.disk.dir_blocks pb).nr_files ∧
      ((s.disk.dir_blocks pb).files j).filename = name) :
    (simplefs_create s pb name mode uid gid).1 = -EEXIST ∧
    (simplefs_create s pb name mode uid gid).2.sbi.nr_free_inodes
      = s.sbi.nr_free_inodes ∧
    (simplefs_create s pb name mode uid gid).2.sbi.nr_free_blocks
      = s.sbi.nr_free_blocks ∧
    (simplefs_create s pb name mode uid gid).2.disk.inode_bitmap
      = s.disk.inode_bitmap ∧
    (simplefs_create s pb name mode uid gid).2.disk.block_bitmap
      = s.disk.block_bitmap ∧
    ((simplefs_create s pb name mode uid gid).2.disk.dir_blocks pb).nr_files
      = (s.disk.dir_blocks pb).nr_files := by
  obtain ⟨hii1, hii2, hiibit, -⟩ := findFirstClear_some hfi
  obtain ⟨hbb1, hbb2, hbbbit, -⟩ := findFirstClear_some hfb
  have hex : name_exists_in (s.disk.dir_blocks pb) name
      (s.disk.dir_blocks pb).nr_files = true := by
    obtain ⟨j, hj1, hj2⟩ := hdup
    exact name_exists_in_of_mem j hj1 hj2
  have hni : ¬(SIMPLEFS_FILENAME_LEN ≤ name.length) := by omega
  have hlt1 : ¬(Int.ofNat ii < 0) := not_lt.mpr (Int.ofNat_nonneg ii)
  have hlt2 : ¬(Int.ofNat bb < 0) := not_lt.mpr (Int.ofNat_nonneg bb)
  have htn1 : (Int.ofNat ii).toNat = ii := rfl
  have htn2 : (Int.ofNat bb).toNat = bb := rfl
  have hmax : ¬(SIMPLEFS_MAX_SUBFILES ≤ (s.disk.dir_blocks pb).nr_files) := by omega
  have hcb : ¬(bb < s.sbi.first_data_block ∨ s.sbi.nr_blocks ≤ bb) := by omega
  have hci : ¬(ii = 0 ∨ s.sbi.nr_inodes ≤ ii) := by omega
  refine ⟨?_, ?_, ?_, ?_, ?_, ?_⟩ <;>
    simp only [simplefs_create, simplefs_alloc_inode_num, simplefs_alloc_block_num,
      simplefs_update_sb, simplefs_free_block_num, simplefs_free_inode_num,
      cleanup_free_both, sb_bread, force_write_buffer, test_bit_in_buffer, hs,
      hfi, hfb, hex, htn1, htn2, if_neg hni, if_neg h0i, if_neg h0b, if_neg hlt1,
      if_neg hlt2, if_neg hmax, if_neg hcb, if_neg hci, set_bit_self, if_true,
      if_false, Bool.true_eq_false, reduceCtorEq] <;>
    first
      | rfl
      | omega
      | exact clear_set_cancel hiibit
      | exact clear_set_cancel hbbbit

/-- Witness for C1: creating `"a"`, which the root directory already holds,
on the concrete volume. -/
theorem create_duplicate_name_no_leak_witness :
    (simplefs_create exFS 4 "a" 420 0 0).1 = -EEXIST ∧
    (simplefs_create exFS 4 "a" 420 0 0).2.sbi.nr_free_inodes
      = exFS.sbi.nr_free_inodes ∧
    (simplefs_create exFS 4 "a" 420 0 0).2.sbi.nr_free_blocks
      = exFS.sbi.nr_free_blocks ∧
    (simplefs_create exFS 4 "a" 420 0 0).2.disk.inode_bitmap
      = exFS.disk.inode_bitmap ∧
    (simplefs_create exFS 4 "a" 420 0 0).2.disk.block_bitmap
      = exFS.disk.block_bitmap ∧
    ((simplefs_create exFS 4 "a" 420 0 0).2.disk.dir_blocks 4).nr_files
      = (exFS.disk.dir_blocks 4).nr_files :=
  create_duplicate_name_no_leak exFS 4 "a" 420 0 0 2 5 rfl (by decide) (by decide)
    (by decide) (by decide) (by decide) (by decide) ⟨0, by decide, by decide⟩

/-! ## C8: the free-counter pre-checks of the two creation paths -/

/-- A volume exactly like `exFS` but with both free counters equal to 1. -/
def lowFS : FS :=
  { exFS with sbi := { exSbi with nr_free_blocks := 1, nr_free_inodes := 1 } }

/-- C8 counterexample: with both free counters equal to 1 (nonzero) and clear
bits available in both bitmaps, `simplefs_mkdir` on an empty-slot parent
fails at its pre-check with `-ENOSPC` and returns the state untouched —
no allocation is ever attempted — though the claim says the pre-check passes
whenever both counters are nonzero, including the value 1. -/
theorem mkdir_precheck_counterexample :
    simplefs_mkdir lowFS 4 "x" 0 0 = (-ENOSPC, lowFS) ∧
    lowFS.sbi.nr_free_inodes = 1 ∧ lowFS.sbi.nr_free_blocks = 1 ∧
    lowFS.disk.inode_bitmap 2 = false ∧ lowFS.disk.block_bitmap 5 = false :=
  ⟨rfl, rfl, rfl, rfl, rfl⟩

/-- C8 (amended): `simplefs_create`'s pre-check fails with `-ENOSPC` exactly
when a free counter is zero, and with both counters nonzero (including 1) it
proceeds to allocation; `simplefs_mkdir`'s conservative pre-check instead
fails with `-ENOSPC` already when a free counter is ≤ 1, and with both
counters at least 2 (and a valid, non-full, collision-free parent) it
proceeds to allocation. -/
theorem create_mkdir_precheck_spec :
    (∀ s pb name mode uid gid, name.length < SIMPLEFS_FILENAME_LEN →
      (s.sbi.nr_free_inodes = 0 ∨ s.sbi.nr_free_blocks = 0) →
      simplefs_create s pb name mode uid gid = (-ENOSPC, s)) ∧
    (∀ s pb name mode uid gid e, name.length < SIMPLEFS_FILENAME_LEN →
      s.sbi.nr_free_inodes ≠ 0 → s.sbi.nr_free_blocks ≠ 0 →
      s.sched = [some e] →
      simplefs_create s pb name mode uid gid = (-EIO_ERR, { s with sched := [] })) ∧
    (∀ s pb name uid gid, name.length < SIMPLEFS_FILENAME_LEN →
      pb ≠ 0 → pb < s.sbi.nr_blocks →
      (s.sbi.nr_free_inodes ≤ 1 ∨ s.sbi.nr_free_blocks ≤ 1) →
      simplefs_mkdir s pb name uid gid = (-ENOSPC, s)) ∧
    (∀ s pb name uid gid e, name.length < SIMPLEFS_FILENAME_LEN →
      pb ≠ 0 → pb < s.sbi.nr_blocks →
      1 < s.sbi.nr_free_inodes → 1 < s.sbi.nr_free_blocks →
      (s.disk.dir_blocks pb).nr_files < SIMPLEFS_MAX_SUBFILES →
      name_exists_valid (s.disk.dir_blocks pb) name
        (s.disk.dir_blocks pb).nr_files = false →
      s.sched = [none, some e] →
      simplefs_mkdir s pb name uid gid = (-EIO_ERR, { s with sched := [] })) := by
  refine ⟨?_, ?_, ?_, ?_⟩
  · intro s pb name mode uid gid hn hz
    have hni : ¬(SIMPLEFS_FILENAME_LEN ≤ name.length) := by omega
    by_cases h0 : s.sbi.nr_free_inodes = 0
    · simp [simplefs_create, if_neg hni, h0]
    · rcases hz with h | h
      · exact absurd h h0
      · simp [simplefs_create, if_neg hni, h0, h]
  · intro s pb name mode uid gid e hn h0i h0b hs
    have hni : ¬(SIMPLEFS_FILENAME_LEN ≤ name.length) := by omega
    simp [simplefs_create, simplefs_alloc_inode_num, sb_bread, if_neg hni,
      h0i, h0b, hs, EIO_ERR]
  · intro s pb name uid gid hn hp1 hp2 hz
    have hni : ¬(SIMPLEFS_FILENAME_LEN ≤ name.length) := by omega
    have hpb : ¬(pb = 0 ∨ s.sbi.nr_blocks ≤ pb) := by omega
    by_cases h0 : s.sbi.nr_free_inodes ≤ 1
    · simp [simplefs_mkdir, if_neg hni, if_neg hpb, h0]
    · rcases hz with h | h
      · exact absurd h h0
      · simp [simplefs_mkdir, if_neg hni, if_neg hpb, h0, h]
  · intro s pb name uid gid e hn hp1 hp2 h0i h0b hnr hne hs
    have hni : ¬(SIMPLEFS_FILENAME_LEN ≤ name.length) := by omega
    have hpb : ¬(pb = 0 ∨ s.sbi.nr_blocks ≤ pb) := by omega
    have h0i2 : ¬(s.sbi.nr_free_inodes ≤ 1) := by omega
    have h0b2 : ¬(s.sbi.nr_free_blocks ≤ 1) := by omega
    have h0i3 : s.sbi.nr_free_inodes ≠ 0 := by omega
    have hgt : ¬(SIMPLEFS_MAX_SUBFILES < (s.disk.dir_blocks pb).nr_files) := by omega
    have hge : ¬(SIMPLEFS_MAX_SUBFILES ≤ (s.disk.dir_blocks pb).nr_files) := by omega
    simp [simplefs_mkdir, simplefs_alloc_inode_num, sb_bread, if_neg hni,
      if_neg hpb, h0i2, h0b2, h0i3, if_neg hgt, if_neg hge, hne, hs, EIO_ERR]

/-- Witness for the amended C8: with free counters 6 and 11 on the concrete
volume and the first allocation read failing with `-7`, `simplefs_create`
reaches the allocator (which consumes the scheduled event and surfaces
`-EIO`), so the pre-check passed. -/
theorem create_mkdir_precheck_spec_witness :
    simplefs_create { exFS with sched := [some (-7)] } 4 "b" 420 0 0
      = (-EIO_ERR, { { exFS with sched := [some (-7)] } with sched := [] }) :=
  create_mkdir_precheck_spec.2.1 { exFS with sched := [some (-7)] } 4 "b" 420 0 0
    (-7) (by decide) (by decide) (by decide) rfl

/-! ## C9: inode-table read validation -/

/-- A volume whose root inode record carries data-block pointer 2 — a
reserved block, outside `{0} ∪ [first_data_block, nr_blocks)`. -/
def badPtrFS : FS :=
  { exFS with disk := { exDisk with inode_table := fun i =>
      if i = 1 then ⟨S_IFDIR ||| 0o755, 0, 0, SIMPLEFS_BLOCK_SIZE, 2, 2⟩
      else ⟨0, 0, 0, 0, 0, 0⟩ } }

/-- C9 counterexample: the decoded data-block pointer 2 is neither 0 nor in
`[first_data_block, nr_blocks) = [4, 16)`, so by the claim `simplefs_iget`
must fail with a corruption error — but the code only checks the pointer
against the constant 12800 and the load succeeds. -/
theorem iget_counterexample :
    (simplefs_iget badPtrFS 1).1
      = .ok ⟨S_IFDIR ||| 0o755, 0, 0, SIMPLEFS_BLOCK_SIZE, 2, 2⟩ ∧
    badPtrFS.sbi.first_data_block = 4 ∧ (2 : Nat) ≠ 0 ∧ (2 : Nat) < 4 :=
  ⟨rfl, rfl, by decide, by decide⟩

/-- C9 (amended): `simplefs_iget` validates against fixed constants, not the
superblock geometry: `-EINVAL` for `ino = 0` or `ino ≥ SIMPLEFS_MAX_INODES`;
`-EIO` when the computed inode block is ≥ 4, i.e.
`ino ≥ 3 * SIMPLEFS_INODES_PER_BLOCK`; `-EINVAL` when the decoded mode is
neither regular file nor directory, or when the decoded data-block pointer is
≥ 12800 (pointers below `first_data_block`, including reserved blocks 1..3,
are accepted); otherwise it succeeds and populates the caller-visible record,
normalizing a directory's stored zero size to one block. -/
theorem iget_spec (s : FS) (ino : Nat) (hs : s.sched = []) :
    (ino = 0 ∨ SIMPLEFS_MAX_INODES ≤ ino →
      simplefs_iget s ino = (.error (-EINVAL), s)) ∧
    (ino ≠ 0 → ino < SIMPLEFS_MAX_INODES → 3 * SIMPLEFS_INODES_PER_BLOCK ≤ ino →
      simplefs_iget s ino = (.error (-EIO_ERR), s)) ∧
    (ino ≠ 0 → ino < 3 * SIMPLEFS_INODES_PER_BLOCK →
      ¬(S_ISDIR (s.disk.inode_table ino).i_mode
        ∨ S_ISREG (s.disk.inode_table ino).i_mode) →
      simplefs_iget s ino = (.error (-EINVAL), s)) ∧
    (ino ≠ 0 → ino < 3 * SIMPLEFS_INODES_PER_BLOCK →
      (S_ISDIR (s.disk.inode_table ino).i_mode
        ∨ S_ISREG (s.disk.inode_table ino).i_mode) →
      12800 ≤ (s.disk.inode_table ino).ei_block →
      simplefs_iget s ino = (.error (-EINVAL), s)) ∧
    (ino ≠ 0 → ino < 3 * SIMPLEFS_INODES_PER_BLOCK →
      (S_ISDIR (s.disk.inode_table ino).i_mode
        ∨ S_ISREG (s.disk.inode_table ino).i_mode) →
      (s.disk.inode_table ino).ei_block < 12800 →
      simplefs_iget s ino
        = (.ok ⟨(s.disk.inode_table ino).i_mode, (s.disk.inode_table ino).i_uid,
            (s.disk.inode_table ino).i_gid,
            (if S_ISDIR (s.disk.inode_table ino).i_mode = true
                ∧ (s.disk.inode_table ino).i_size = 0
              then SIMPLEFS_BLOCK_SIZE else (s.disk.inode_table ino).i_size),
            (s.disk.inode_table ino).i_nlink,
            (s.disk.inode_table ino).ei_block⟩, s)) := by
  have hip : SIMPLEFS_INODES_PER_BLOCK = 170 := rfl
  refine ⟨?_, ?_, ?_, ?_, ?_⟩
  · intro h
    simp [simplefs_iget, h]
  · intro h1 h2 h3
    rw [hip] at h3
    have hv : ¬(ino = 0 ∨ SIMPLEFS_MAX_INODES ≤ ino) := by omega
    have hb : 4 ≤ ino / SIMPLEFS_INODES_PER_BLOCK + 1 := by
      rw [hip]
      omega
    simp [simplefs_iget, hv, hb]
  · intro h1 h2 hm
    rw [hip] at h2
    have hv : ¬(ino = 0 ∨ SIMPLEFS_MAX_INODES ≤ ino) := by
      simp [SIMPLEFS_MAX_INODES, SIMPLEFS_BITS_PER_BLOCK, SIMPLEFS_BLOCK_SIZE]
      omega
    have hb : ¬(4 ≤ ino / SIMPLEFS_INODES_PER_BLOCK + 1) := by
      rw [hip]
      omega
    simp [simplefs_iget, hv, hb, hm, hs, sb_bread]
  · intro h1 h2 hm hp
    rw [hip] at h2
    have hv : ¬(ino = 0 ∨ SIMPLEFS_MAX_INODES ≤ ino) := by
      simp [SIMPLEFS_MAX_INODES, SIMPLEFS_BITS_PER_BLOCK, SIMPLEFS_BLOCK_SIZE]
      omega
    have hb : ¬(4 ≤ ino / SIMPLEFS_INODES_PER_BLOCK + 1) := by
      rw [hip]
      omega
    simp [simplefs_iget, hv, hb, hm, hp, hs, sb_bread]
  · intro h1 h2 hm hp
    rw [hip] at h2
    have hv : ¬(ino = 0 ∨ SIMPLEFS_MAX_INODES ≤ ino) := by
      simp [SIMPLEFS_MAX_INODES, SIMPLEFS_BITS_PER_BLOCK, SIMPLEFS_BLOCK_SIZE]
      omega
    have hb : ¬(4 ≤ ino / SIMPLEFS_INODES_PER_BLOCK + 1) := by
      rw [hip]
      omega
    have hp2 : ¬(12800 ≤ (s.disk.inode_table ino).ei_block) := by omega
    simp [simplefs_iget, hv, hb, hm, hp2, hs, sb_bread]

/-- Witness for the amended C9: loading the root inode of the concrete
volume succeeds with its decoded fields. -/
theorem iget_spec_witness :
    simplefs_iget exFS 1
      = (.ok ⟨exRootInode.i_mode, exRootInode.i_uid, exRootInode.i_gid,
          (if S_ISDIR exRootInode.i_mode = true ∧ exRootInode.i_size = 0
            then SIMPLEFS_BLOCK_SIZE else exRootInode.i_size),
          exRootInode.i_nlink, exRootInode.ei_block⟩, exFS) :=
  (iget_spec exFS 1 rfl).2.2.2.2 (by decide) (by decide) (by decide) (by decide)

/-! ## C7: resumable directory iteration -/

/-- The entries of slots `[i, i + k)` of a directory block, in slot order. -/
def emittedSeg (db : DirBlock) (i k : Nat) : List (String × Nat) :=
  (List.range' i k).map (fun j => ((db.files j).filename, (db.files j).inode))

theorem iterate_loop_spec (db : DirBlock) (n : Nat)
    (hn : n ≤ SIMPLEFS_MAX_SUBFILES)
    (hvalid : ∀ j, j < n → (db.files j).inode ≠ 0)
    (hzero : ∀ j, n ≤ j → j < SIMPLEFS_MAX_SUBFILES → (db.files j).inode = 0) :
    ∀ fuel i ctx, i + fuel = SIMPLEFS_MAX_SUBFILES →
      simplefs_iterate_loop db i fuel ctx =
        { pos := ctx.pos + (min (i + ctx.budget) n - i),
          budget := ctx.budget - (min (i + ctx.budget) n - i),
          emitted := ctx.emitted ++ emittedSeg db i (min (i + ctx.budget) n - i) } := by
  have hmax : SIMPLEFS_MAX_SUBFILES = 128 := rfl
  rw [hmax] at hn hzero
  intro fuel
  induction fuel with
  | zero =>
    intro i ctx hif
    rw [hmax] at hif
    have hk : min (i + ctx.budget) n - i = 0 := by omega
    rw [simplefs_iterate_loop, hk]
    simp [emittedSeg]
  | succ m ih =>
    intro i ctx hif
    rw [hmax] at hif
    rw [simplefs_iterate_loop]
    by_cases hzi : (db.files i).inode = 0
    · have hin : n ≤ i := by
        by_contra hc
        exact hvalid i (by omega) hzi
      have hk : min (i + ctx.budget) n - i = 0 := by omega
      rw [if_pos hzi, hk]
      simp [emittedSeg]
    · have hiln : i < n := by
        by_contra hc
        exact hzi (hzero i (by omega) (by omega))
      rw [if_neg hzi]
      by_cases hbud : ctx.budget = 0
      · have hk : min (i + ctx.budget) n - i = 0 := by omega
        rw [hk]
        simp only [dir_emit, if_pos hbud]
        simp [emittedSeg]
      · have hstep := ih (i + 1)
          { ctx with
            budget := ctx.budget - 1,
            emitted := ctx.emitted ++ [((db.files i).filename, (db.files i).inode)],
            pos := ctx.pos + 1 }
          (by rw [hmax]; omega)
      -- the emitted entry is slot i; the recursive call covers [i+1, …)
        simp only [dir_emit, hbud, if_false, if_neg hbud]
        rw [hstep]
        have hk : min (i + ctx.budget) n - i
            = (min (i + 1 + (ctx.budget - 1)) n - (i + 1)) + 1 := by omega
        rw [hk]
        simp only [DirCtx.mk.injEq]
        refine ⟨by omega, by omega, ?_⟩
        rw [List.append_assoc]
        rw [show emittedSeg db i ((min (i + 1 + (ctx.budget - 1)) n - (i + 1)) + 1)
            = ((db.files i).filename, (db.files i).inode)
              :: emittedSeg db (i + 1) (min (i + 1 + (ctx.budget - 1)) n - (i + 1))
          from by simp [emittedSeg, List.range'_succ]]
        simp

/-- C7 (amended): for a directory block whose valid entries occupy the
contiguous prefix `[0, n)` (slots at and past `n` are zeroed), a call of
`simplefs_iterate` from any cursor `2 ≤ pos ≤ n + 2`, with any host budget,
emits exactly the consecutive slots `[pos - 2, pos - 2 + budget) ∩ [0, n)`
in order and moves the cursor past exactly the emitted entries — entries are
produced once each, none skipped and none duplicated, and the final cursor is
the resumption point; the code stops at the first zero-inode slot rather than
skipping it, so a hole would end the iteration instead. -/
theorem iterate_resumable_spec (s : FS) (i_mode ei_block dino parent_ino : Nat)
    (ctx : DirCtx) (n : Nat)
    (hs : s.sched = [])
    (hdir : S_ISDIR i_mode = true)
    (hn : n ≤ SIMPLEFS_MAX_SUBFILES)
    (hvalid : ∀ j, j < n → ((s.disk.dir_blocks ei_block).files j).inode ≠ 0)
    (hzero : ∀ j, n ≤ j → j < SIMPLEFS_MAX_SUBFILES →
      ((s.disk.dir_blocks ei_block).files j).inode = 0)
    (hpos1 : 2 ≤ ctx.pos) (hpos2 : ctx.pos ≤ n + 2) :
    simplefs_iterate s i_mode ei_block dino parent_ino ctx
      = (0, { pos := min (ctx.pos + ctx.budget) (n + 2),
              budget := ctx.budget
                - (min (ctx.pos + ctx.budget) (n + 2) - ctx.pos),
              emitted := ctx.emitted ++ emittedSeg (s.disk.dir_blocks ei_block)
                (ctx.pos - 2)
                (min (ctx.pos + ctx.budget) (n + 2) - ctx.pos) }, s) := by
  have hmax : SIMPLEFS_MAX_SUBFILES = 128 := rfl
  have hover : ¬(SIMPLEFS_MAX_SUBFILES + 2 < ctx.pos) := by
    rw [hmax]
    rw [hmax] at hn
    omega
  have hp0 : ctx.pos ≠ 0 := by omega
  have hp1 : ctx.pos ≠ 1 := by omega
  have hloop := iterate_loop_spec (s.disk.dir_blocks ei_block) n hn hvalid hzero
    (SIMPLEFS_MAX_SUBFILES - (ctx.pos - 2)) (ctx.pos - 2) ctx
    (by rw [hmax]; rw [hmax] at hn; omega)
  simp only [simplefs_iterate, hdir, not_true, if_neg hover, dir_emit_dots,
    if_neg hp0, if_neg hp1, sb_bread, hs, Bool.not_true, if_false, ite_false]
  rw [hloop]
  have hk : min (ctx.pos - 2 + ctx.budget) n - (ctx.pos - 2)
      = min (ctx.pos + ctx.budget) (n + 2) - ctx.pos := by omega
  rw [hk]
  have hpos : ctx.pos + (min (ctx.pos + ctx.budget) (n + 2) - ctx.pos)
      = min (ctx.pos + ctx.budget) (n + 2) := by omega
  rw [hpos]

/-- A directory block with an empty slot 0 and a valid entry at slot 1. -/
def gapDir : DirBlock := ⟨2, fun j => if j = 1 then ⟨2, "a"⟩ else ⟨0, ""⟩⟩

def gapFS : FS :=
  { exFS with disk := { exDisk with dir_blocks := fun b =>
      if b = 4 then gapDir else zeroDirBlock } }

/-- C7 counterexample: slot 0 of the directory block is empty (inode 0) and
slot 1 holds the valid entry `("a", 2)` with `nr_files = 2`; by the claim,
iteration from cursor 2 with ample budget skips the empty slot (still
advancing the cursor) and produces `"a"` — but the code treats the first
zero-inode slot as end-of-directory: it emits nothing and leaves the cursor
at 2, so the valid entry is never produced on this or any resumed call. -/
theorem iterate_skip_counterexample :
    (simplefs_iterate gapFS (S_IFDIR ||| 0o755) 4 1 1 ⟨2, 10, []⟩).2.1
      = ⟨2, 10, []⟩ ∧
    (gapFS.disk.dir_blocks 4).nr_files = 2 ∧
    ((gapFS.disk.dir_blocks 4).files 0).inode = 0 ∧
    ((gapFS.disk.dir_blocks 4).files 1).inode = 2 ∧
    ((gapFS.disk.dir_blocks 4).files 1).filename = "a" :=
  ⟨rfl, rfl, rfl, rfl, rfl⟩

/-- A directory block holding exactly the entries `"a"` and `"b"`. -/
def abDir : DirBlock :=
  ⟨2, fun j => if j = 0 then ⟨2, "a"⟩ else if j = 1 then ⟨3, "b"⟩ else ⟨0, ""⟩⟩

def abFS : FS :=
  { exFS with disk := { exDisk with dir_blocks := fun b =>
      if b = 4 then abDir else zeroDirBlock } }

/-- Witness for the amended C7, mirroring the spec's paging example: with a
budget of one entry per call, the first call from cursor 2 yields `"a"` and
cursor 3, and the resumed call from cursor 3 yields `"b"` and cursor 4 —
each entry exactly once. -/
theorem iterate_resumable_spec_witness :
    simplefs_iterate abFS (S_IFDIR ||| 0o755) 4 1 1 ⟨2, 1, []⟩
      = (0, ⟨3, 0, [("a", 2)]⟩, abFS) ∧
    simplefs_iterate abFS (S_IFDIR ||| 0o755) 4 1 1 ⟨3, 1, []⟩
      = (0, ⟨4, 0, [("b", 3)]⟩, abFS) := by
  have hvalid : ∀ j, j < 2 → ((abFS.disk.dir_blocks 4).files j).inode ≠ 0 := by
    intro j hj
    interval_cases j <;> decide
  have hzero : ∀ j, 2 ≤ j → j < SIMPLEFS_MAX_SUBFILES →
      ((abFS.disk.dir_blocks 4).files j).inode = 0 := by
    intro j h1 h2
    have hj0 : j ≠ 0 := by omega
    have hj1 : j ≠ 1 := by omega
    simp [abFS, exDisk, abDir, hj0, hj1, zeroDirBlock]
  constructor
  · exact iterate_resumable_spec abFS (S_IFDIR ||| 0o755) 4 1 1 ⟨2, 1, []⟩ 2 rfl
      (by decide) (by decide) hvalid hzero (by decide) (by decide)
  · exact iterate_resumable_spec abFS (S_IFDIR ||| 0o755) 4 1 1 ⟨3, 1, []⟩ 2 rfl
      (by decide) (by decide) hvalid hzero (by decide) (by decide)

/-! ## C4: step order of the two creation paths -/

/-- Schedule failing the 15th I/O event of `simplefs_mkdir` on the concrete
volume: the force-write that persists the parent's new directory entry. -/
def c4FS : FS := { exFS with sched := List.replicate 14 none ++ [some (-5)] }

/-- C4 counterexample: in `simplefs_mkdir`, an I/O failure while appending
the parent directory entry (the 15th event: parent read, 2×4 allocation
events, inode-record read+write, data-block read+write and parent re-read all
succeed, then the append write fails) happens *after* the new inode record
was written: the call returns the append error `-5`, yet the record for the
allocated inode 2 is in the table (it was all-zero before), violating the
claim's ordering — entry appended and persisted before any inode record
write — for `create_directory`. -/
theorem mkdir_step_order_counterexample :
    (simplefs_mkdir c4FS 4 "d" 0 0).1 = -5 ∧
    (simplefs_mkdir c4FS 4 "d" 0 0).2.disk.inode_table 2
      = ⟨S_IFDIR ||| 0o755, 0, 0, SIMPLEFS_BLOCK_SIZE, 2, 5⟩ ∧
    c4FS.disk.inode_table 2 = ⟨0, 0, 0, 0, 0, 0⟩ ∧
    ((simplefs_mkdir c4FS 4 "d" 0 0).2.disk.dir_blocks 4).nr_files = 1 := by
  decide

/-- C4 (amended): the two creation paths do *not* share one step order.
`simplefs_create` appends and persists the parent entry before writing the
inode record, so an I/O failure at the append leaves the inode table and the
parent block unchanged and frees both allocations; `simplefs_mkdir` writes
the inode record and zeroes the data block first and appends the parent entry
last, so an I/O failure at the append happens after the inode record was
written: the record remains in the table while the parent block is unchanged
and both allocations are freed. -/
theorem create_mkdir_step_order_spec :
    (∀ s pb name mode uid gid ii bb e,
      s.sched = List.replicate 9 none ++ [some e] →
      name.length < SIMPLEFS_FILENAME_LEN →
      s.sbi.nr_free_inodes ≠ 0 → s.sbi.nr_free_blocks ≠ 0 →
      findFirstClear s.disk.inode_bitmap 1 s.sbi.nr_inodes = some ii →
      findFirstClear s.disk.block_bitmap s.sbi.first_data_block s.sbi.nr_blocks
        = some bb →
      (s.disk.dir_blocks pb).nr_files < SIMPLEFS_MAX_SUBFILES →
      name_exists_in (s.disk.dir_blocks pb) name
        (s.disk.dir_blocks pb).nr_files = false →
      (simplefs_create s pb name mode uid gid).1 = e ∧
      (simplefs_create s pb name mode uid gid).2.disk.inode_table
        = s.disk.inode_table ∧
      (simplefs_create s pb name mode uid gid).2.disk.dir_blocks
        = s.disk.dir_blocks ∧
      (simplefs_create s pb name mode uid gid).2.disk.inode_bitmap
        = s.disk.inode_bitmap ∧
      (simplefs_create s pb name mode uid gid).2.disk.block_bitmap
        = s.disk.block_bitmap ∧
      (simplefs_create s pb name mode uid gid).2.sbi.nr_free_inodes
        = s.sbi.nr_free_inodes ∧
      (simplefs_create s pb name mode uid gid).2.sbi.nr_free_blocks
        = s.sbi.nr_free_blocks) ∧
    (∀ s pb name uid gid ii bb e,
      s.sched = List.replicate 14 none ++ [some e] →
      name.length < SIMPLEFS_FILENAME_LEN →
      pb ≠ 0 → pb < s.sbi.nr_blocks →
      1 < s.sbi.nr_free_inodes → 1 < s.sbi.nr_free_blocks →
      findFirstClear s.disk.inode_bitmap 1 s.sbi.nr_inodes = some ii →
      findFirstClear s.disk.block_bitmap s.sbi.first_data_block s.sbi.nr_blocks
        = some bb →
      s.disk.block_bitmap pb = true →
      (s.disk.dir_blocks pb).nr_files < SIMPLEFS_MAX_SUBFILES →
      name_exists_valid (s.disk.dir_blocks pb) name
        (s.disk.dir_blocks pb).nr_files = false →
      (simplefs_mkdir s pb name uid gid).1 = e ∧
      (simplefs_mkdir s pb name uid gid).2.disk.inode_table ii
        = ⟨S_IFDIR ||| 0o755, uid, gid, SIMPLEFS_BLOCK_SIZE, 2, bb⟩ ∧
      (simplefs_mkdir s pb name uid gid).2.disk.dir_blocks pb
        = s.disk.dir_blocks pb ∧
      (simplefs_mkdir s pb name uid gid).2.disk.inode_bitmap
        = s.disk.inode_bitmap ∧
      (simplefs_mkdir s pb name uid gid).2.disk.block_bitmap
        = s.disk.block_bitmap ∧
      (simplefs_mkdir s pb name uid gid).2.sbi.nr_free_inodes
        = s.sbi.nr_free_inodes ∧
      (simplefs_mkdir s pb name uid gid).2.sbi.nr_free_blocks
        = s.sbi.nr_free_blocks) := by
  constructor
  · intro s pb name mode uid gid ii bb e hsched hn h0i h0b hfi hfb hnr hne
    obtain ⟨hii1, hii2, hiibit, -⟩ := findFirstClear_some hfi
    obtain ⟨hbb1, hbb2, hbbbit, -⟩ := findFirstClear_some hfb
    have hsched2 : s.sched
        = none :: none :: none :: none :: none :: none :: none :: none :: none
          :: [some e] := by rw [hsched]; rfl
    have hni : ¬(SIMPLEFS_FILENAME_LEN ≤ name.length) := by omega
    have hlt1 : ¬(Int.ofNat ii < 0) := not_lt.mpr (Int.ofNat_nonneg ii)
    have hlt2 : ¬(Int.ofNat bb < 0) := not_lt.mpr (Int.ofNat_nonneg bb)
    have htn1 : (Int.ofNat ii).toNat = ii := rfl
    have htn2 : (Int.ofNat bb).toNat = bb := rfl
    have hmax : ¬(SIMPLEFS_MAX_SUBFILES ≤ (s.disk.dir_blocks pb).nr_files) := by
      omega
    have hcb : ¬(bb < s.sbi.first_data_block ∨ s.sbi.nr_blocks ≤ bb) := by omega
    have hci : ¬(ii = 0 ∨ s.sbi.nr_inodes ≤ ii) := by omega
    refine ⟨?_, ?_, ?_, ?_, ?_, ?_, ?_⟩ <;>
      simp only [simplefs_create, simplefs_alloc_inode_num, simplefs_alloc_block_num,
        simplefs_update_sb, simplefs_free_block_num, simplefs_free_inode_num,
        cleanup_free_both, sb_bread, force_write_buffer, test_bit_in_buffer,
        hsched2, hfi, hfb, hne, htn1, htn2, if_neg hni, if_neg h0i, if_neg h0b,
        if_neg hlt1, if_neg hlt2, if_neg hmax, if_neg hcb, if_neg hci,
        set_bit_self, if_true, if_false, Bool.false_eq_true, Bool.true_eq_false,
        reduceCtorEq] <;>
      first
        | rfl
        | omega
        | exact clear_set_cancel hiibit
        | exact clear_set_cancel hbbbit
  · intro s pb name uid gid ii bb e hsched hn hp1 hp2 h0i h0b hfi hfb hpbm hnr hne
    obtain ⟨hii1, hii2, hiibit, -⟩ := findFirstClear_some hfi
    obtain ⟨hbb1, hbb2, hbbbit, -⟩ := findFirstClear_some hfb
    have hpbb : ¬(pb = bb) := by
      intro hcon
      rw [hcon, hbbbit] at hpbm
      exact absurd hpbm (by simp)
    have hsched2 : s.sched
        = none :: none :: none :: none :: none :: none :: none :: none :: none
          :: none :: none :: none :: none :: none :: [some e] := by
      rw [hsched]; rfl
    have hni : ¬(SIMPLEFS_FILENAME_LEN ≤ name.length) := by omega
    have hpb : ¬(pb = 0 ∨ s.sbi.nr_blocks ≤ pb) := by omega
    have hc1i : ¬(s.sbi.nr_free_inodes ≤ 1) := by omega
    have hc1b : ¬(s.sbi.nr_free_blocks ≤ 1) := by omega
    have h0i0 : ¬(s.sbi.nr_free_inodes = 0) := by omega
    have h0b0 : ¬(s.sbi.nr_free_blocks = 0) := by omega
    have hgt : ¬(SIMPLEFS_MAX_SUBFILES < (s.disk.dir_blocks pb).nr_files) := by
      omega
    have hge : ¬(SIMPLEFS_MAX_SUBFILES ≤ (s.disk.dir_blocks pb).nr_files) := by
      omega
    have hlt1 : ¬(Int.ofNat ii < 0) := not_lt.mpr (Int.ofNat_nonneg ii)
    have hlt2 : ¬(Int.ofNat bb < 0) := not_lt.mpr (Int.ofNat_nonneg bb)
    have htn1 : (Int.ofNat ii).toNat = ii := rfl
    have htn2 : (Int.ofNat bb).toNat = bb := rfl
    have hcb : ¬(bb < s.sbi.first_data_block ∨ s.sbi.nr_blocks ≤ bb) := by omega
    have hci : ¬(ii = 0 ∨ s.sbi.nr_inodes ≤ ii) := by omega
    refine ⟨?_, ?_, ?_, ?_, ?_, ?_, ?_⟩ <;>
      simp only [simplefs_mkdir, simplefs_alloc_inode_num, simplefs_alloc_block_num,
        simplefs_update_sb, simplefs_free_block_num, simplefs_free_inode_num,
        cleanup_free_both, sb_bread, force_write_buffer, test_bit_in_buffer,
        hsched2, hfi, hfb, hne, htn1, htn2, if_neg hni, if_neg hpb, if_neg hc1i,
        if_neg hc1b, if_neg h0i0, if_neg h0b0, if_neg hgt, if_neg hge,
        if_neg hlt1, if_neg hlt2, if_neg hcb, if_neg hci, hpbb, set_bit_self,
        if_true, if_false, Bool.false_eq_true, Bool.true_eq_false,
        reduceCtorEq] <;>
      first
        | rfl
        | omega
        | exact clear_set_cancel hiibit
        | exact clear_set_cancel hbbbit

/-- Witness for the amended C4, mkdir part, on the concrete volume: the
append write fails with `-5`, the inode record for inode 2 is in the table,
the parent block and both bitmaps and counters are back to their
pre-call values. -/
theorem create_mkdir_step_order_spec_witness :
    (simplefs_mkdir c4FS 4 "d" 0 0).1 = -5 ∧
    (simplefs_mkdir c4FS 4 "d" 0 0).2.disk.inode_table 2
      = ⟨S_IFDIR ||| 0o755, 0, 0, SIMPLEFS_BLOCK_SIZE, 2, 5⟩ ∧
    (simplefs_mkdir c4FS 4 "d" 0 0).2.disk.dir_blocks 4
      = c4FS.disk.dir_blocks 4 ∧
    (simplefs_mkdir c4FS 4 "d" 0 0).2.disk.inode_bitmap
      = c4FS.disk.inode_bitmap ∧
    (simplefs_mkdir c4FS 4 "d" 0 0).2.disk.block_bitmap
      = c4FS.disk.block_bitmap ∧
    (simplefs_mkdir c4FS 4 "d" 0 0).2.sbi.nr_free_inodes
      = c4FS.sbi.nr_free_inodes ∧
    (simplefs_mkdir c4FS 4 "d" 0 0).2.sbi.nr_free_blocks
      = c4FS.sbi.nr_free_blocks :=
  create_mkdir_step_order_spec.2 c4FS 4 "d" 0 0 2 5 (-5) rfl (by decide)
    (by decide) (by decide) (by decide) (by decide) (by decide) (by decide)
    (by decide) (by decide) (by decide)

/-! ## C5: I/O failure while writing the inode record in mkdir -/

/-- Schedule failing the 11th I/O event of `simplefs_mkdir` on the concrete
volume: the force-write that persists the new inode record. -/
def c5FS : FS := { exFS with sched := List.replicate 10 none ++ [some (-5)] }

/-- C5 counterexample: when the inode-record write of `simplefs_mkdir` fails
(11th event; parent read, both allocations and the inode-block read succeed),
both allocations are indeed freed again (bits 2 and 5 clear, counters back to
6 and 11) — but no directory entry "remains in the parent directory block":
the parent still holds exactly its one original entry (`nr_files = 1`, slot 1
empty), because mkdir had not yet appended the entry when the failure hit;
the claim's "persisted in the prior step" scenario does not occur. -/
theorem mkdir_inode_write_failure_counterexample :
    (simplefs_mkdir c5FS 4 "d" 0 0).1 = -5 ∧
    ((simplefs_mkdir c5FS 4 "d" 0 0).2.disk.dir_blocks 4).nr_files = 1 ∧
    (((simplefs_mkdir c5FS 4 "d" 0 0).2.disk.dir_blocks 4).files 1).inode = 0 ∧
    (simplefs_mkdir c5FS 4 "d" 0 0).2.disk.inode_table 2 = ⟨0, 0, 0, 0, 0, 0⟩ ∧
    (simplefs_mkdir c5FS 4 "d" 0 0).2.disk.inode_bitmap 2 = false ∧
    (simplefs_mkdir c5FS 4 "d" 0 0).2.disk.block_bitmap 5 = false ∧
    (simplefs_mkdir c5FS 4 "d" 0 0).2.sbi.nr_free_inodes = 6 ∧
    (simplefs_mkdir c5FS 4 "d" 0 0).2.sbi.nr_free_blocks = 11 := by
  decide

/-- C5 (amended): if the write of the new inode record fails with an I/O
error during `simplefs_mkdir`, the allocated inode and block are both freed
(bitmaps cleared, free counters restored) and the parent directory block —
indeed every directory block and the whole inode table — is unchanged: no
directory entry had been persisted, because mkdir appends the parent entry
only after the inode record and data block are written. -/
theorem mkdir_inode_write_failure_spec (s : FS) (pb : Nat) (name : String)
    (uid gid ii bb : Nat) (e : Int)
    (hsched : s.sched = List.replicate 10 none ++ [some e])
    (hn : name.length < SIMPLEFS_FILENAME_LEN)
    (hp1 : pb ≠ 0) (hp2 : pb < s.sbi.nr_blocks)
    (h0i : 1 < s.sbi.nr_free_inodes) (h0b : 1 < s.sbi.nr_free_blocks)
    (hfi : findFirstClear s.disk.inode_bitmap 1 s.sbi.nr_inodes = some ii)
    (hfb : findFirstClear s.disk.block_bitmap s.sbi.first_data_block
      s.sbi.nr_blocks = some bb)
    (hnr : (s.disk.dir_blocks pb).nr_files < SIMPLEFS_MAX_SUBFILES)
    (hne : name_exists_valid (s.disk.dir_blocks pb) name
      (s.disk.dir_blocks pb).nr_files = false) :
    (simplefs_mkdir s pb name uid gid).1 = e ∧
    (simplefs_mkdir s pb name uid gid).2.sbi.nr_free_inodes
      = s.sbi.nr_free_inodes ∧
    (simplefs_mkdir s pb name uid gid).2.sbi.nr_free_blocks
      = s.sbi.nr_free_blocks ∧
    (simplefs_mkdir s pb name uid gid).2.disk.inode_bitmap
      = s.disk.inode_bitmap ∧
    (simplefs_mkdir s pb name uid gid).2.disk.block_bitmap
      = s.disk.block_bitmap ∧
    (simplefs_mkdir s pb name uid gid).2.disk.dir_blocks = s.disk.dir_blocks ∧
    (simplefs_mkdir s pb name uid gid).2.disk.inode_table
      = s.disk.inode_table := by
  obtain ⟨hii1, hii2, hiibit, -⟩ := findFirstClear_some hfi
  obtain ⟨hbb1, hbb2, hbbbit, -⟩ := findFirstClear_some hfb
  have hsched2 : s.sched
      = none :: none :: none :: none :: none :: none :: none :: none :: none
        :: none :: [some e] := by
    rw [hsched]; rfl
  have hni : ¬(SIMPLEFS_FILENAME_LEN ≤ name.length) := by omega
  have hpb : ¬(pb = 0 ∨ s.sbi.nr_blocks ≤ pb) := by omega
  have hc1i : ¬(s.sbi.nr_free_inodes ≤ 1) := by omega
  have hc1b : ¬(s.sbi.nr_free_blocks ≤ 1) := by omega
  have h0i0 : ¬(s.sbi.nr_free_inodes = 0) := by omega
  have h0b0 : ¬(s.sbi.nr_free_blocks = 0) := by omega
  have hgt : ¬(SIMPLEFS_MAX_SUBFILES < (s.disk.dir_blocks pb).nr_files) := by
    omega
  have hge : ¬(SIMPLEFS_MAX_SUBFILES ≤ (s.disk.dir_blocks pb).nr_files) := by
    omega
  have hlt1 : ¬(Int.ofNat ii < 0) := not_lt.mpr (Int.ofNat_nonneg ii)
  have hlt2 : ¬(Int.ofNat bb < 0) := not_lt.mpr (Int.ofNat_nonneg bb)
  have htn1 : (Int.ofNat ii).toNat = ii := rfl
  have htn2 : (Int.ofNat bb).toNat = bb := rfl
  have hcb : ¬(bb < s.sbi.first_data_block ∨ s.sbi.nr_blocks ≤ bb) := by omega
  have hci : ¬(ii = 0 ∨ s.sbi.nr_inodes ≤ ii) := by omega
  refine ⟨?_, ?_, ?_, ?_, ?_, ?_, ?_⟩ <;>
    simp only [simplefs_mkdir, simplefs_alloc_inode_num, simplefs_alloc_block_num,
      simplefs_update_sb, simplefs_free_block_num, simplefs_free_inode_num,
      cleanup_free_both, sb_bread, force_write_buffer, test_bit_in_buffer,
      hsched2, hfi, hfb, hne, htn1, htn2, if_neg hni, if_neg hpb, if_neg hc1i,
      if_neg hc1b, if_neg h0i0, if_neg h0b0, if_neg hgt, if_neg hge,
      if_neg hlt1, if_neg hlt2, if_neg hcb, if_neg hci, set_bit_self,
      if_true, if_false, Bool.false_eq_true, Bool.true_eq_false,
      reduceCtorEq] <;>
    first
      | rfl
      | omega
      | exact clear_set_cancel hiibit
      | exact clear_set_cancel hbbbit

/-- Witness for the amended C5 on the concrete volume. -/
theorem mkdir_inode_write_failure_spec_witness :
    (simplefs_mkdir c5FS 4 "d" 0 0).1 = -5 ∧
    (simplefs_mkdir c5FS 4 "d" 0 0).2.sbi.nr_free_inodes
      = c5FS.sbi.nr_free_inodes ∧
    (simplefs_mkdir c5FS 4 "d" 0 0).2.sbi.nr_free_blocks
      = c5FS.sbi.nr_free_blocks ∧
    (simplefs_mkdir c5FS 4 "d" 0 0).2.disk.inode_bitmap
      = c5FS.disk.inode_bitmap ∧
    (simplefs_mkdir c5FS 4 "d" 0 0).2.disk.block_bitmap
      = c5FS.disk.block_bitmap ∧
    (simplefs_mkdir c5FS 4 "d" 0 0).2.disk.dir_blocks
      = c5FS.disk.dir_blocks ∧
    (simplefs_mkdir c5FS 4 "d" 0 0).2.disk.inode_table
      = c5FS.disk.inode_table :=
  mkdir_inode_write_failure_spec c5FS 4 "d" 0 0 2 5 (-5) rfl (by decide)
    (by decide) (by decide) (by decide) (by decide) (by decide) (by decide)
    (by decide) (by decide)
